import Mathlib

/-!
Verification development for the kraken-os service/event runtime core.

Shallow embedding of the C sources under `components/system/src/`:
pure Lean functions model each C function; the global mutable state of each
subsystem is threaded explicitly as a structure value.  Machine integers are
modelled as `Nat` with explicit `% 2^32` where 32-bit wraparound matters
(timestamps, key material).  Mutex acquisition is modelled as always
succeeding (the sequential semantics of each operation); the mutex-timeout
early-return branches of the C code are therefore not reachable in the model.
C strings are modelled as Lean `String`s; a `NULL` char pointer is modelled
as `Option.none` where an API distinguishes it.  `strncpy` into a
`char[SYSTEM_SERVICE_MAX_NAME_LEN]` buffer is modelled as `String.take 31`
(31 characters plus the forced terminator).
-/

/-- Error results of the runtime (the `esp_err_t` values the modelled
functions actually return; names follow `error_codes.h`). -/
inductive EspErr where
  | ok
  | invalidArg
  | invalidState
  | noMem
  | timeout
  | notFound
  | serviceNotFound
  | eventTypeNotFound
  | eventDataTooLarge
  | subscriptionFull
  | subscriptionNotFound
  | quotaEventsExceeded
  | quotaSubscriptionsExceeded
  | quotaDataSizeExceeded
  | circularDependency
  | restartFailed
  | securityInvalidKey
  | systemNotInitialized
  | systemAlreadyInitialized
  | systemNotStarted
  deriving DecidableEq, Repr

/-- Bound used for 32-bit wraparound arithmetic. -/
def U32_MOD : Nat := 2 ^ 32

/-- 32-bit xor, as used by `security_generate_key`. -/
def u32xor (a b : Nat) : Nat := (Nat.xor a b) % U32_MOD

namespace Security

/-- `security_generate_key` (security.c): key = random ^ timestamp, with a
zero draw replaced by the fixed constant 0xDEADBEEF.  The entropy sources
`esp_random()` and `esp_timer_get_time() & 0xFFFFFFFF` are inputs. -/
def security_generate_key (randomVal timestamp : Nat) : Nat :=
  let key := u32xor (randomVal % U32_MOD) (timestamp % U32_MOD)
  if key = 0 then 0xDEADBEEF else key

/-- `security_validate_key` (security.c): a presented key validates iff it is
nonzero and equals the stored key. -/
def security_validate_key (key storedKey : Nat) : Bool :=
  key ≠ 0 && key == storedKey

/-- `security_invalidate_key` (security.c): the stored key is set to 0. -/
def security_invalidate_key (_key : Nat) : Nat := 0

/-- `system_verify_key` (system_service.c): false when the runtime is not
initialized, otherwise `security_validate_key` against the stored key. -/
def system_verify_key (initialized : Bool) (storedKey key : Nat) : Bool :=
  if !initialized then false else security_validate_key key storedKey

end Security

/-- C10: the secure-key value 0 is never valid.  `security_generate_key`
never returns 0 (a zero xor draw is replaced by 0xDEADBEEF);
`security_validate_key` rejects a presented key of 0 even when the stored
key is 0; `security_invalidate_key` (used by deinit) stores 0, after which
no presented key validates, whether checked directly or through
`system_verify_key` on the torn-down (uninitialized) runtime. -/
theorem secure_key_zero_never_valid :
    ∀ r t stored k init,
      0 < Security.security_generate_key r t ∧
      Security.security_validate_key 0 stored = false ∧
      Security.security_invalidate_key stored = 0 ∧
      Security.security_validate_key k (Security.security_invalidate_key stored) = false ∧
      Security.system_verify_key false (Security.security_invalidate_key stored) k = false ∧
      Security.system_verify_key init 0 k = false := by
  intro r t stored k init
  refine ⟨?_, ?_, rfl, ?_, rfl, ?_⟩
  · show 0 < (if u32xor (r % U32_MOD) (t % U32_MOD) = 0 then 0xDEADBEEF
      else u32xor (r % U32_MOD) (t % U32_MOD))
    split
    · norm_num
    · omega
  · simp [Security.security_validate_key]
  · simp [Security.security_validate_key, Security.security_invalidate_key]
  · cases init <;>
      simp [Security.system_verify_key, Security.security_validate_key]

/- ===========================================================================
Resource quota enforcer (resource_quota.c).

The C module keeps `quota_entry_t entries[SYSTEM_SERVICE_MAX_SERVICES]`;
the model keeps the array as a list whose length is the configured maximum,
with `find_entry` scanning it in order.  Only the fields the modelled
operations read or write are represented.
=========================================================================== -/

namespace Quota

/-- `service_quota_t`: the per-service limits. -/
structure ServiceQuota where
  maxEventsPerSec : Nat
  maxSubscriptions : Nat
  maxEventDataSize : Nat
  maxMemoryBytes : Nat
  deriving DecidableEq, Repr

/-- `service_quota_usage_t`: the per-service counters. -/
structure QuotaUsage where
  eventsThisSec : Nat
  totalEventsPosted : Nat
  activeSubscriptions : Nat
  currentMemoryBytes : Nat
  quotaViolations : Nat
  deriving DecidableEq, Repr

/-- `quota_entry_t`. -/
structure QuotaEntry where
  active : Bool
  serviceId : Nat
  quota : ServiceQuota
  usage : QuotaUsage
  lastResetTime : Nat
  deriving DecidableEq, Repr

/-- `quota_context_t` without the mutex. -/
structure QuotaState where
  initialized : Bool
  entries : List QuotaEntry
  deriving DecidableEq, Repr

/-- `find_entry` (resource_quota.c): first active entry with the service id. -/
def find_entry (es : List QuotaEntry) (sid : Nat) : Option QuotaEntry :=
  es.find? (fun e => e.active && e.serviceId == sid)

/-- Mutation through the pointer returned by `find_entry`: apply `f` to the
first active entry with the service id, leave everything else in place. -/
def updateFirst (es : List QuotaEntry) (sid : Nat)
    (f : QuotaEntry → QuotaEntry) : List QuotaEntry :=
  match es with
  | [] => []
  | e :: rest =>
    if e.active && e.serviceId == sid then f e :: rest
    else e :: updateFirst rest sid f

/-- `quota_check_event_post` (resource_quota.c lines 210-237): refuse with
`QuotaEventsExceeded` (and count a violation) iff an entry exists and its
window counter has reached the limit. -/
def quota_check_event_post (st : QuotaState) (sid : Nat) : EspErr × QuotaState :=
  if !st.initialized then (.ok, st)
  else
    match find_entry st.entries sid with
    | none => (.ok, st)
    | some e =>
      if e.usage.eventsThisSec ≥ e.quota.maxEventsPerSec then
        (.quotaEventsExceeded,
         { st with entries := updateFirst st.entries sid (fun e' =>
             { e' with usage := { e'.usage with
                 quotaViolations := e'.usage.quotaViolations + 1 } }) })
      else (.ok, st)

/-- `quota_record_event_post` (resource_quota.c lines 239-257). -/
def quota_record_event_post (st : QuotaState) (sid : Nat) : QuotaState :=
  if !st.initialized then st
  else
    match find_entry st.entries sid with
    | none => st
    | some _ =>
      { st with entries := updateFirst st.entries sid (fun e' =>
          { e' with usage := { e'.usage with
              eventsThisSec := e'.usage.eventsThisSec + 1,
              totalEventsPosted := e'.usage.totalEventsPosted + 1 } }) }

/-- `quota_check_subscription` (resource_quota.c lines 259-285). -/
def quota_check_subscription (st : QuotaState) (sid : Nat) : EspErr × QuotaState :=
  if !st.initialized then (.ok, st)
  else
    match find_entry st.entries sid with
    | none => (.ok, st)
    | some e =>
      if e.usage.activeSubscriptions ≥ e.quota.maxSubscriptions then
        (.quotaSubscriptionsExceeded,
         { st with entries := updateFirst st.entries sid (fun e' =>
             { e' with usage := { e'.usage with
                 quotaViolations := e'.usage.quotaViolations + 1 } }) })
      else (.ok, st)

/-- `quota_record_subscription` (resource_quota.c lines 287-308). -/
def quota_record_subscription (st : QuotaState) (sid : Nat) (add : Bool) :
    QuotaState :=
  if !st.initialized then st
  else
    match find_entry st.entries sid with
    | none => st
    | some _ =>
      { st with entries := updateFirst st.entries sid (fun e' =>
          { e' with usage := { e'.usage with
              activeSubscriptions :=
                if add then e'.usage.activeSubscriptions + 1
                else e'.usage.activeSubscriptions - 1 } }) }

/-- `quota_check_data_size` (resource_quota.c lines 310-336). -/
def quota_check_data_size (st : QuotaState) (sid : Nat) (dataSize : Nat) :
    EspErr × QuotaState :=
  if !st.initialized then (.ok, st)
  else
    match find_entry st.entries sid with
    | none => (.ok, st)
    | some e =>
      if dataSize > e.quota.maxEventDataSize then
        (.quotaDataSizeExceeded,
         { st with entries := updateFirst st.entries sid (fun e' =>
             { e' with usage := { e'.usage with
                 quotaViolations := e'.usage.quotaViolations + 1 } }) })
      else (.ok, st)

/-- `quota_reset_counters` (resource_quota.c lines 386-409): zero every
active entry's window counter (and stamp the reset time). -/
def quota_reset_counters (st : QuotaState) (now : Nat) : QuotaState :=
  if !st.initialized then st
  else
    { st with entries := st.entries.map (fun e =>
        if e.active then
          { e with usage := { e.usage with eventsThisSec := 0 },
                   lastResetTime := now }
        else e) }

end Quota

/- ===========================================================================
Priority queue (priority_queue.c).

Four bounded FIFOs, one per priority class; `queue_sizes` gives CRITICAL the
same capacity as HIGH.  A FreeRTOS queue is modelled as a list (front =
oldest) with a capacity; `xQueueSend` appends at the back when there is
room, `xQueueReceive` takes the front.  The calls to `memory_pool_free` on
evicted payloads are modelled as an extra output: the list of payloads
handed to the allocator during the call.
=========================================================================== -/

/-- Event priority ordinals (system_types.h): LOW=0, NORMAL=1, HIGH=2,
CRITICAL=3. -/
def PRIORITY_LOW : Nat := 0
def PRIORITY_NORMAL : Nat := 1
def PRIORITY_HIGH : Nat := 2
def PRIORITY_CRITICAL : Nat := 3

/-- `system_event_t`: the dispatched message.  The payload pointer + length
pair is modelled as the byte list `data` (`[]` stands for the NULL payload
of a zero-length post); `dataSize = data.length`. -/
structure SysEvent where
  eventType : Nat
  priority : Nat
  senderId : Nat
  timestamp : Nat
  data : List Nat
  sequenceNumber : Nat
  deriving DecidableEq, Repr

namespace PQueue

/-- `event_queue_stats_t` counters the modelled operations touch. -/
structure PQStats where
  totalEventsQueued : Nat
  totalEventsProcessed : Nat
  highPriorityOverflows : Nat
  normalPriorityOverflows : Nat
  lowPriorityOverflows : Nat
  lowPriorityDrops : Nat
  deriving DecidableEq, Repr

/-- `struct priority_queue`: one bounded FIFO per class.  `capHigh` is the
capacity of both the HIGH and the CRITICAL queue (`queue_sizes` assigns
CONFIG_SYSTEM_SERVICE_HIGH_PRIORITY_QUEUE_SIZE to both). -/
structure PQState where
  qLow : List SysEvent
  qNormal : List SysEvent
  qHigh : List SysEvent
  qCritical : List SysEvent
  capLow : Nat
  capNormal : Nat
  capHigh : Nat
  stats : PQStats
  sequenceCounter : Nat
  deriving DecidableEq, Repr

/-- The FIFO selected by a priority value (`pq->queues[event->priority]`). -/
def queueOf (pq : PQState) (prio : Nat) : List SysEvent :=
  if prio = PRIORITY_LOW then pq.qLow
  else if prio = PRIORITY_NORMAL then pq.qNormal
  else if prio = PRIORITY_HIGH then pq.qHigh
  else pq.qCritical

/-- The capacity of the FIFO selected by a priority value. -/
def capOf (pq : PQState) (prio : Nat) : Nat :=
  if prio = PRIORITY_LOW then pq.capLow
  else if prio = PRIORITY_NORMAL then pq.capNormal
  else pq.capHigh

/-- Store back the FIFO selected by a priority value. -/
def setQueue (pq : PQState) (prio : Nat) (q : List SysEvent) : PQState :=
  if prio = PRIORITY_LOW then { pq with qLow := q }
  else if prio = PRIORITY_NORMAL then { pq with qNormal := q }
  else if prio = PRIORITY_HIGH then { pq with qHigh := q }
  else { pq with qCritical := q }

/-- `priority_queue_post` (priority_queue.c lines 128-193).  Returns the
error, the new queue state, and the payloads passed to `memory_pool_free`
during the call.  The event copy receives the next sequence number; on
overflow of CRITICAL/HIGH/NORMAL the post is refused with the class counter
bumped; on overflow of LOW the oldest LOW event is dequeued (its non-NULL
payload freed) and the new event is admitted, refusing only if the retry
also finds no room. -/
def priority_queue_post (pq : PQState) (event : SysEvent) :
    EspErr × PQState × List (List Nat) :=
  if event.priority ≥ 4 then (.invalidArg, pq, [])
  else
    let eventCopy := { event with sequenceNumber := pq.sequenceCounter }
    let pq := { pq with
      sequenceCounter := pq.sequenceCounter + 1,
      stats := { pq.stats with
        totalEventsQueued := pq.stats.totalEventsQueued + 1 } }
    let q := queueOf pq event.priority
    if q.length < capOf pq event.priority then
      (.ok, setQueue pq event.priority (q ++ [eventCopy]), [])
    else if event.priority = PRIORITY_HIGH ∨ event.priority = PRIORITY_CRITICAL then
      (.timeout, { pq with stats := { pq.stats with
        highPriorityOverflows := pq.stats.highPriorityOverflows + 1 } }, [])
    else if event.priority = PRIORITY_NORMAL then
      (.timeout, { pq with stats := { pq.stats with
        normalPriorityOverflows := pq.stats.normalPriorityOverflows + 1 } }, [])
    else
      let pq := { pq with stats := { pq.stats with
        lowPriorityOverflows := pq.stats.lowPriorityOverflows + 1 } }
      match pq.qLow with
      | [] => (.timeout, pq, [])
      | dropped :: rest =>
        let freed := if dropped.data ≠ [] then [dropped.data] else []
        let pq := { pq with
          qLow := rest
          stats := { pq.stats with
            lowPriorityDrops := pq.stats.lowPriorityDrops + 1 } }
        if rest.length < pq.capLow then
          (.ok, { pq with qLow := rest ++ [eventCopy] }, freed)
        else
          (.timeout, pq, freed)

/-- `priority_queue_receive` (priority_queue.c lines 195-248), the
non-blocking core: take from the first non-empty FIFO in strict descending
priority order, or report timeout when all four are empty. -/
def priority_queue_receive (pq : PQState) : EspErr × Option SysEvent × PQState :=
  let bump (s : PQStats) : PQStats :=
    { s with totalEventsProcessed := s.totalEventsProcessed + 1 }
  match pq.qCritical with
  | e :: rest =>
    (.ok, some e, { pq with qCritical := rest, stats := bump pq.stats })
  | [] =>
    match pq.qHigh with
    | e :: rest =>
      (.ok, some e, { pq with qHigh := rest, stats := bump pq.stats })
    | [] =>
      match pq.qNormal with
      | e :: rest =>
        (.ok, some e, { pq with qNormal := rest, stats := bump pq.stats })
      | [] =>
        match pq.qLow with
        | e :: rest =>
          (.ok, some e, { pq with qLow := rest, stats := bump pq.stats })
        | [] => (.timeout, none, pq)

end PQueue

/- ===========================================================================
System context and event bus (system_internal.h, event_bus.c,
service_manager.c).

`system_context_t`'s fixed arrays are modelled as lists whose length is the
configured maximum (`SYSTEM_SERVICE_MAX_SERVICES` etc. are Kconfig values,
so the bound is the list length); `services[i]` is `services.getD i`.  The
memory-pool payload copy always succeeds in the model (`memory_pool_alloc`
falls back to the heap; its exhaustion path returns NULL only when the heap
itself is exhausted, which the model does not represent).  The subscription
tracker (`app_lifecycle_track_subscription`) only mirrors the table for
teardown and is not represented.
=========================================================================== -/

/-- `SYSTEM_MAX_DATA_SIZE` (system_internal.h). -/
def SYSTEM_MAX_DATA_SIZE : Nat := 512

/-- `service_entry_t` (system_internal.h). -/
structure ServiceEntry where
  name : String
  serviceId : Nat
  state : Nat
  lastHeartbeat : Nat
  serviceContext : Nat
  registered : Bool
  eventCount : Nat
  deriving DecidableEq, Repr

/-- The all-zero slot (`memset`-cleared). -/
def ServiceEntry.cleared : ServiceEntry :=
  { name := "", serviceId := 0, state := 0, lastHeartbeat := 0,
    serviceContext := 0, registered := false, eventCount := 0 }

/-- `event_type_entry_t` (system_internal.h). -/
structure EventTypeEntry where
  eventType : Nat
  eventName : String
  registered : Bool
  deriving DecidableEq, Repr

/-- `event_subscription_t` (system_internal.h).  The handler function
pointer is opaque; it is modelled as a `Nat` with `0` standing for NULL. -/
structure Subscription where
  serviceId : Nat
  eventType : Nat
  handler : Nat
  userData : Nat
  active : Bool
  deriving DecidableEq, Repr

/-- The inactive (cleared) subscription slot. -/
def Subscription.cleared : Subscription :=
  { serviceId := 0, eventType := 0, handler := 0, userData := 0,
    active := false }

/-- `system_context_t` (system_internal.h) together with the quota module's
state, which `system_event_post`/`system_event_subscribe` consult. -/
structure SysState where
  initialized : Bool
  running : Bool
  secureKey : Nat
  services : List ServiceEntry
  serviceCount : Nat
  eventTypes : List EventTypeEntry
  eventTypeCount : Nat
  subscriptions : List Subscription
  subscriptionCount : Nat
  eventQueue : PQueue.PQState
  totalEventsPosted : Nat
  totalEventsProcessed : Nat
  quota : Quota.QuotaState
  deriving DecidableEq, Repr

namespace EventBus

/-- `services[sid].registered` after the `sid < SYSTEM_SERVICE_MAX_SERVICES`
bound check. -/
def serviceRegistered (st : SysState) (sid : Nat) : Bool :=
  (st.services.getD sid ServiceEntry.cleared).registered

/-- `event_type < MAX && event_types[event_type].registered`. -/
def eventTypeRegistered (st : SysState) (etype : Nat) : Bool :=
  decide (etype < st.eventTypes.length) &&
    (st.eventTypes.getD etype
      { eventType := 0, eventName := "", registered := false }).registered

/-- Replace element `i` of a list, leaving it unchanged when out of range
(array store through a checked index). -/
def setAt {α : Type} (xs : List α) (i : Nat) (f : α → α) : List α :=
  match xs, i with
  | [], _ => []
  | x :: rest, 0 => f x :: rest
  | x :: rest, n + 1 => x :: setAt rest n f

/-- Mark the first inactive subscription slot with `f`, returning `none`
when every slot is active (the `slot == -1` path). -/
def fillFirstFreeSub (subs : List Subscription)
    (s : Subscription) : Option (List Subscription) :=
  match subs with
  | [] => none
  | x :: rest =>
    if !x.active then some (s :: rest)
    else (fillFirstFreeSub rest s).map (fun r => x :: r)

/-- `system_event_subscribe` (event_bus.c lines 86-171).  NULL handler is
`handler = 0`.  Order of the checks is the code's: handler, initialized,
id bound, subscription quota, registered sender, registered type, existing
subscription (idempotent success), free slot; then the slot is filled and
the quota record is incremented. -/
def system_event_subscribe (st : SysState) (sid etype handler userData : Nat) :
    EspErr × SysState :=
  if handler = 0 then (.invalidArg, st)
  else if !st.initialized then (.systemNotInitialized, st)
  else if sid ≥ st.services.length then (.invalidArg, st)
  else
    match Quota.quota_check_subscription st.quota sid with
    | (e, q') =>
      if e ≠ .ok then (e, { st with quota := q' })
      else
        let st := { st with quota := q' }
        if !serviceRegistered st sid then (.serviceNotFound, st)
        else if !eventTypeRegistered st etype then (.eventTypeNotFound, st)
        else if st.subscriptions.any (fun s =>
            s.active && s.serviceId == sid && s.eventType == etype) then
          (.ok, st)
        else
          match fillFirstFreeSub st.subscriptions
              { serviceId := sid, eventType := etype, handler := handler,
                userData := userData, active := true } with
          | none => (.subscriptionFull, st)
          | some subs' =>
            let st := { st with
              subscriptions := subs'
              subscriptionCount := st.subscriptionCount + 1 }
            let st := { st with
              quota := Quota.quota_record_subscription st.quota sid true }
            (.ok, st)

/-- `system_event_post` (event_bus.c lines 219-305).  `data = []` models a
NULL or zero-length payload; `now` is the `esp_timer_get_time()/1000`
timestamp.  Check order is the code's: running, id bound, event-rate quota,
data-size quota, hard size cap, registered sender, registered type; then
the event is built, per-sender counters bumped, the event posted to the
priority queue (failure propagates after freeing the payload), and the
post recorded against the sender's quota. -/
def system_event_post (st : SysState) (sid etype : Nat) (data : List Nat)
    (priority : Nat) (now : Nat) : EspErr × SysState :=
  if !(st.initialized && st.running) then (.systemNotStarted, st)
  else if sid ≥ st.services.length then (.invalidArg, st)
  else
    match Quota.quota_check_event_post st.quota sid with
    | (e, q') =>
      if e ≠ .ok then (e, { st with quota := q' })
      else
        let st := { st with quota := q' }
        match Quota.quota_check_data_size st.quota sid data.length with
        | (e2, q2) =>
          if e2 ≠ .ok then (e2, { st with quota := q2 })
          else
            let st := { st with quota := q2 }
            if data.length > SYSTEM_MAX_DATA_SIZE then
              (.eventDataTooLarge, st)
            else if !serviceRegistered st sid then (.serviceNotFound, st)
            else if !eventTypeRegistered st etype then (.eventTypeNotFound, st)
            else
              let event : SysEvent :=
                { eventType := etype, priority := priority, senderId := sid,
                  timestamp := now, data := data, sequenceNumber := 0 }
              let st := { st with
                services := setAt st.services sid (fun s =>
                  { s with eventCount := s.eventCount + 1 })
                totalEventsPosted := st.totalEventsPosted + 1 }
              match PQueue.priority_queue_post st.eventQueue event with
              | (ret, pq', _freed) =>
                if ret ≠ .ok then ({ st with eventQueue := pq' } |>
                    (fun st' => (ret, st')))
                else
                  let st := { st with eventQueue := pq' }
                  let st := { st with
                    quota := Quota.quota_record_event_post st.quota sid }
                  (.ok, st)

end EventBus

/-- C9: `system_event_post` requires the runtime to be running, not merely
initialized.  For every state that is initialized but not running (after
`init()` but before `start(token)`, or after `stop(token)`), every post
returns the not-started error and leaves the whole state — subscription
table, quota counters, queues, per-service counters — exactly unchanged:
the check precedes every quota check, validation and allocation. -/
theorem post_requires_running (st : SysState) (sid etype : Nat)
    (data : List Nat) (priority now : Nat)
    (hinit : st.initialized = true) (hrun : st.running = false) :
    EventBus.system_event_post st sid etype data priority now =
      (.systemNotStarted, st) := by
  unfold EventBus.system_event_post
  rw [hinit, hrun]
  rfl

/-- Witness for `post_requires_running`: a concrete initialized, stopped
state on which a post is refused with the not-started error and nothing
changes. -/
theorem post_requires_running_witness :
    EventBus.system_event_post
      { initialized := true, running := false, secureKey := 7,
        services := [ServiceEntry.cleared], serviceCount := 0,
        eventTypes := [], eventTypeCount := 0,
        subscriptions := [], subscriptionCount := 0,
        eventQueue :=
          { qLow := [], qNormal := [], qHigh := [], qCritical := [],
            capLow := 8, capNormal := 8, capHigh := 8,
            stats := { totalEventsQueued := 0, totalEventsProcessed := 0,
                       highPriorityOverflows := 0, normalPriorityOverflows := 0,
                       lowPriorityOverflows := 0, lowPriorityDrops := 0 },
            sequenceCounter := 0 },
        totalEventsPosted := 0, totalEventsProcessed := 0,
        quota := { initialized := true, entries := [] } }
      0 0 [1, 2] PRIORITY_NORMAL 5 =
      (.systemNotStarted,
       { initialized := true, running := false, secureKey := 7,
         services := [ServiceEntry.cleared], serviceCount := 0,
         eventTypes := [], eventTypeCount := 0,
         subscriptions := [], subscriptionCount := 0,
         eventQueue :=
           { qLow := [], qNormal := [], qHigh := [], qCritical := [],
             capLow := 8, capNormal := 8, capHigh := 8,
             stats := { totalEventsQueued := 0, totalEventsProcessed := 0,
                        highPriorityOverflows := 0, normalPriorityOverflows := 0,
                        lowPriorityOverflows := 0, lowPriorityDrops := 0 },
             sequenceCounter := 0 },
         totalEventsPosted := 0, totalEventsProcessed := 0,
         quota := { initialized := true, entries := [] } }) :=
  post_requires_running _ 0 0 [1, 2] PRIORITY_NORMAL 5 rfl rfl


/-- C6: when the LOW FIFO is full and one more LOW event is posted, exactly
one event — the oldest LOW event — is evicted, its payload handed to the
allocator, and the new event admitted with success; the other three FIFOs
are untouched.  When a full NORMAL/HIGH/CRITICAL FIFO receives one more
event of its class, the post is refused and no queue loses an event:
higher-priority classes are never evicted by this policy. -/
theorem low_overflow_evicts_oldest (pq pqh : PQueue.PQState)
    (ev evh : SysEvent)
    (hp : ev.priority = PRIORITY_LOW)
    (hfull : pq.qLow.length = pq.capLow)
    (hcap : 0 < pq.capLow)
    (hph : evh.priority = PRIORITY_NORMAL ∨ evh.priority = PRIORITY_HIGH ∨
      evh.priority = PRIORITY_CRITICAL)
    (hfullh : (PQueue.queueOf pqh evh.priority).length =
      PQueue.capOf pqh evh.priority) :
    ((PQueue.priority_queue_post pq ev).1 = .ok ∧
     (PQueue.priority_queue_post pq ev).2.1.qLow =
       pq.qLow.tail ++ [{ ev with sequenceNumber := pq.sequenceCounter }] ∧
     (PQueue.priority_queue_post pq ev).2.1.qNormal = pq.qNormal ∧
     (PQueue.priority_queue_post pq ev).2.1.qHigh = pq.qHigh ∧
     (PQueue.priority_queue_post pq ev).2.1.qCritical = pq.qCritical ∧
     (PQueue.priority_queue_post pq ev).2.1.stats.lowPriorityDrops =
       pq.stats.lowPriorityDrops + 1 ∧
     (PQueue.priority_queue_post pq ev).2.2 =
       (if (pq.qLow.headD ev).data ≠ [] then [(pq.qLow.headD ev).data]
        else [])) ∧
    ((PQueue.priority_queue_post pqh evh).1 = .timeout ∧
     (PQueue.priority_queue_post pqh evh).2.1.qLow = pqh.qLow ∧
     (PQueue.priority_queue_post pqh evh).2.1.qNormal = pqh.qNormal ∧
     (PQueue.priority_queue_post pqh evh).2.1.qHigh = pqh.qHigh ∧
     (PQueue.priority_queue_post pqh evh).2.1.qCritical = pqh.qCritical ∧
     (PQueue.priority_queue_post pqh evh).2.2 = []) := by
  constructor
  · rcases hq : pq.qLow with _ | ⟨d, rest⟩
    · rw [hq] at hfull
      simp at hfull
      omega
    · have hrest : rest.length + 1 = pq.capLow := by
        rw [hq] at hfull
        simpa using hfull
      simp only [PQueue.priority_queue_post, hp, PRIORITY_LOW, PRIORITY_NORMAL,
        PRIORITY_HIGH, PRIORITY_CRITICAL, PQueue.queueOf, PQueue.capOf,
        PQueue.setQueue, hq]
      norm_num
      rw [if_neg (by omega), if_pos (by omega)]
      simp
  · rcases hph with h | h | h
    all_goals
      rw [h] at hfullh
    all_goals
      simp only [PQueue.queueOf, PQueue.capOf, PRIORITY_LOW, PRIORITY_NORMAL,
        PRIORITY_HIGH, PRIORITY_CRITICAL] at hfullh
    all_goals
      norm_num at hfullh
    all_goals
      simp only [PQueue.priority_queue_post, h, PRIORITY_LOW, PRIORITY_NORMAL,
        PRIORITY_HIGH, PRIORITY_CRITICAL, PQueue.queueOf, PQueue.capOf,
        PQueue.setQueue]
    all_goals
      norm_num
    all_goals
      rw [if_neg (by omega)]
    all_goals
      simp

/-- A LOW event used by the overflow witness. -/
def evLowW : SysEvent :=
  { eventType := 0, priority := 0, senderId := 0, timestamp := 0,
    data := [9], sequenceNumber := 0 }

/-- A NORMAL event used by the overflow witness. -/
def evNormalW : SysEvent :=
  { eventType := 0, priority := 1, senderId := 0, timestamp := 0,
    data := [7], sequenceNumber := 0 }

/-- The event already sitting in the full queues of the overflow witness. -/
def evOldW : SysEvent :=
  { eventType := 1, priority := 0, senderId := 0, timestamp := 3,
    data := [5], sequenceNumber := 0 }

/-- Empty statistics record. -/
def pqStats0 : PQueue.PQStats :=
  { totalEventsQueued := 0, totalEventsProcessed := 0,
    highPriorityOverflows := 0, normalPriorityOverflows := 0,
    lowPriorityOverflows := 0, lowPriorityDrops := 0 }

/-- A priority queue whose LOW FIFO (capacity 1) is full. -/
def pqFullLowW : PQueue.PQState :=
  { qLow := [evOldW], qNormal := [], qHigh := [], qCritical := [],
    capLow := 1, capNormal := 1, capHigh := 1,
    stats := pqStats0, sequenceCounter := 4 }

/-- A priority queue whose NORMAL FIFO (capacity 1) is full. -/
def pqFullNormalW : PQueue.PQState :=
  { qLow := [], qNormal := [evOldW], qHigh := [], qCritical := [],
    capLow := 1, capNormal := 1, capHigh := 1,
    stats := pqStats0, sequenceCounter := 4 }

/-- Witness for `low_overflow_evicts_oldest` at the concrete full queues. -/
theorem low_overflow_evicts_oldest_witness :
    ((PQueue.priority_queue_post pqFullLowW evLowW).1 = .ok ∧
     (PQueue.priority_queue_post pqFullLowW evLowW).2.1.qLow =
       pqFullLowW.qLow.tail ++
         [{ evLowW with sequenceNumber := pqFullLowW.sequenceCounter }] ∧
     (PQueue.priority_queue_post pqFullLowW evLowW).2.1.qNormal =
       pqFullLowW.qNormal ∧
     (PQueue.priority_queue_post pqFullLowW evLowW).2.1.qHigh =
       pqFullLowW.qHigh ∧
     (PQueue.priority_queue_post pqFullLowW evLowW).2.1.qCritical =
       pqFullLowW.qCritical ∧
     (PQueue.priority_queue_post pqFullLowW evLowW).2.1.stats.lowPriorityDrops =
       pqFullLowW.stats.lowPriorityDrops + 1 ∧
     (PQueue.priority_queue_post pqFullLowW evLowW).2.2 =
       (if (pqFullLowW.qLow.headD evLowW).data ≠ [] then
          [(pqFullLowW.qLow.headD evLowW).data]
        else [])) ∧
    ((PQueue.priority_queue_post pqFullNormalW evNormalW).1 = .timeout ∧
     (PQueue.priority_queue_post pqFullNormalW evNormalW).2.1.qLow =
       pqFullNormalW.qLow ∧
     (PQueue.priority_queue_post pqFullNormalW evNormalW).2.1.qNormal =
       pqFullNormalW.qNormal ∧
     (PQueue.priority_queue_post pqFullNormalW evNormalW).2.1.qHigh =
       pqFullNormalW.qHigh ∧
     (PQueue.priority_queue_post pqFullNormalW evNormalW).2.1.qCritical =
       pqFullNormalW.qCritical ∧
     (PQueue.priority_queue_post pqFullNormalW evNormalW).2.2 = []) :=
  low_overflow_evicts_oldest pqFullLowW pqFullNormalW evLowW evNormalW
    rfl (by decide) (by decide) (Or.inl rfl) (by decide)

/-- The usage bump `quota_record_event_post` applies to the sender's entry. -/
def Quota.recordPostEntry (en : Quota.QuotaEntry) : Quota.QuotaEntry :=
  { en with usage := { en.usage with
      eventsThisSec := en.usage.eventsThisSec + 1,
      totalEventsPosted := en.usage.totalEventsPosted + 1 } }

theorem Quota.find_entry_updateFirst (es : List Quota.QuotaEntry) (sid : Nat)
    (f : Quota.QuotaEntry → Quota.QuotaEntry)
    (hf : ∀ e, (f e).active = e.active ∧ (f e).serviceId = e.serviceId) :
    Quota.find_entry (Quota.updateFirst es sid f) sid =
      (Quota.find_entry es sid).map f := by
  induction es with
  | nil => rfl
  | cons e rest ih =>
    by_cases h : (e.active && e.serviceId == sid) = true
    · simp [Quota.updateFirst, Quota.find_entry, h, (hf e).1, (hf e).2]
    · simp [Quota.updateFirst, Quota.find_entry, h] at ih ⊢
      exact ih

theorem EventBus.length_setAt {α : Type} (xs : List α) (i : Nat) (f : α → α) :
    (EventBus.setAt xs i f).length = xs.length := by
  induction xs generalizing i with
  | nil => rfl
  | cons x rest ih =>
    cases i with
    | zero => rfl
    | succ n => simpa [EventBus.setAt] using ih n

theorem EventBus.getD_setAt_registered (xs : List ServiceEntry) (i : Nat)
    (f : ServiceEntry → ServiceEntry)
    (hf : ∀ x, (f x).registered = x.registered) (j : Nat) (d : ServiceEntry) :
    ((EventBus.setAt xs i f).getD j d).registered = (xs.getD j d).registered := by
  induction xs generalizing i j with
  | nil => rfl
  | cons x rest ih =>
    cases i with
    | zero =>
      cases j with
      | zero => simpa [EventBus.setAt] using hf x
      | succ m => simp [EventBus.setAt]
    | succ n =>
      cases j with
      | zero => simp [EventBus.setAt]
      | succ m => simpa [EventBus.setAt] using ih n m

theorem PQueue.post_room (pq : PQueue.PQState) (ev : SysEvent)
    (hprio : ev.priority < 4)
    (hroom : (PQueue.queueOf pq ev.priority).length <
      PQueue.capOf pq ev.priority) :
    PQueue.priority_queue_post pq ev =
      (.ok,
       PQueue.setQueue
         { pq with
           sequenceCounter := pq.sequenceCounter + 1,
           stats := { pq.stats with
             totalEventsQueued := pq.stats.totalEventsQueued + 1 } }
         ev.priority
         (PQueue.queueOf pq ev.priority ++
           [{ ev with sequenceNumber := pq.sequenceCounter }]),
       []) := by
  have h4 : ¬ ev.priority ≥ 4 := by omega
  unfold PQueue.priority_queue_post
  rw [if_neg h4]
  dsimp only
  split
  · rfl
  · next hc => exact absurd hroom hc

theorem PQueue.queueOf_setQueue (pq : PQueue.PQState) (p : Nat)
    (q : List SysEvent) :
    PQueue.queueOf (PQueue.setQueue pq p q) p = q := by
  unfold PQueue.queueOf PQueue.setQueue
  split_ifs <;> simp_all

theorem PQueue.capOf_setQueue (pq : PQueue.PQState) (p p' : Nat)
    (q : List SysEvent) :
    PQueue.capOf (PQueue.setQueue pq p q) p' = PQueue.capOf pq p' := by
  unfold PQueue.capOf PQueue.setQueue
  split_ifs <;> rfl

/-- One successful `system_event_post`: under a quota record below its
event-rate limit, a payload within both size limits, a registered sender
and type, and room in the target FIFO, the post returns success, bumps the
sender's window counter by exactly one, appends exactly one event to the
target FIFO, and preserves every precondition. -/
theorem post_step (st : SysState) (sid etype : Nat) (data : List Nat)
    (priority now : Nat) (en : Quota.QuotaEntry)
    (hinit : st.initialized = true) (hrun : st.running = true)
    (hsid : sid < st.services.length)
    (hqinit : st.quota.initialized = true)
    (hfind : Quota.find_entry st.quota.entries sid = some en)
    (hunder : en.usage.eventsThisSec < en.quota.maxEventsPerSec)
    (hdsize : data.length ≤ en.quota.maxEventDataSize)
    (hsize : data.length ≤ SYSTEM_MAX_DATA_SIZE)
    (hreg : EventBus.serviceRegistered st sid = true)
    (htype : EventBus.eventTypeRegistered st etype = true)
    (hprio : priority < 4)
    (hroom : (PQueue.queueOf st.eventQueue priority).length <
      PQueue.capOf st.eventQueue priority) :
    (EventBus.system_event_post st sid etype data priority now).1 = .ok ∧
    ((EventBus.system_event_post st sid etype data priority now).2.initialized
      = true) ∧
    ((EventBus.system_event_post st sid etype data priority now).2.running
      = true) ∧
    ((EventBus.system_event_post st sid etype data priority now).2.services.length
      = st.services.length) ∧
    ((EventBus.system_event_post st sid etype data priority now).2.quota.initialized
      = true) ∧
    (Quota.find_entry
      (EventBus.system_event_post st sid etype data priority now).2.quota.entries
      sid = some (Quota.recordPostEntry en)) ∧
    (EventBus.serviceRegistered
      (EventBus.system_event_post st sid etype data priority now).2 sid = true) ∧
    (EventBus.eventTypeRegistered
      (EventBus.system_event_post st sid etype data priority now).2 etype = true) ∧
    ((PQueue.queueOf
      (EventBus.system_event_post st sid etype data priority now).2.eventQueue
      priority).length =
      (PQueue.queueOf st.eventQueue priority).length + 1) ∧
    (PQueue.capOf
      (EventBus.system_event_post st sid etype data priority now).2.eventQueue
      priority = PQueue.capOf st.eventQueue priority) := by
  have hq1 : Quota.quota_check_event_post st.quota sid = (.ok, st.quota) := by
    unfold Quota.quota_check_event_post
    rw [hqinit, hfind]
    simp [Nat.not_le.mpr hunder]
  have hq2 : Quota.quota_check_data_size st.quota sid data.length =
      (.ok, st.quota) := by
    unfold Quota.quota_check_data_size
    rw [hqinit, hfind]
    simp [Nat.not_lt.mpr hdsize]
  have hrec : Quota.quota_record_event_post st.quota sid =
      { st.quota with
        entries :=
          Quota.updateFirst st.quota.entries sid Quota.recordPostEntry } := by
    unfold Quota.quota_record_event_post
    rw [hfind]
    simp [hqinit]
    rfl
  have hpost : EventBus.system_event_post st sid etype data priority now =
      (.ok,
       { st with
         services := EventBus.setAt st.services sid (fun s =>
           { s with eventCount := s.eventCount + 1 })
         totalEventsPosted := st.totalEventsPosted + 1
         eventQueue :=
           PQueue.setQueue
             { st.eventQueue with
               sequenceCounter := st.eventQueue.sequenceCounter + 1,
               stats := { st.eventQueue.stats with
                 totalEventsQueued :=
                   st.eventQueue.stats.totalEventsQueued + 1 } }
             priority
             (PQueue.queueOf st.eventQueue priority ++
               [{ eventType := etype, priority := priority, senderId := sid,
                  timestamp := now, data := data,
                  sequenceNumber := st.eventQueue.sequenceCounter }])
         quota := { st.quota with
           entries :=
             Quota.updateFirst st.quota.entries sid
               Quota.recordPostEntry } }) := by
    unfold EventBus.system_event_post
    rw [if_neg (by simp [hinit, hrun])]
    rw [if_neg (by omega : ¬ sid ≥ st.services.length)]
    rw [hq1]
    dsimp only
    rw [if_neg (by decide : ¬ (EspErr.ok ≠ EspErr.ok))]
    rw [hq2]
    dsimp only
    rw [if_neg (by decide : ¬ (EspErr.ok ≠ EspErr.ok))]
    rw [if_neg (by omega : ¬ data.length > SYSTEM_MAX_DATA_SIZE)]
    rw [hreg]
    rw [if_neg (by decide : ¬ ((!true) = true))]
    rw [htype]
    rw [if_neg (by decide : ¬ ((!true) = true))]
    rw [PQueue.post_room _ _ (by exact hprio) (by exact hroom)]
    dsimp only
    rw [if_neg (by decide : ¬ (EspErr.ok ≠ EspErr.ok)), hrec]
  rw [hpost]
  dsimp only
  refine ⟨rfl, hinit, hrun, EventBus.length_setAt _ _ _, hqinit, ?_, ?_, ?_,
    ?_, ?_⟩
  · rw [Quota.find_entry_updateFirst _ _ Quota.recordPostEntry
      (fun e => ⟨rfl, rfl⟩), hfind]
    rfl
  · unfold EventBus.serviceRegistered
    dsimp only
    rw [EventBus.getD_setAt_registered _ _
      (fun s => { s with eventCount := s.eventCount + 1 }) (fun s => rfl)]
    exact hreg
  · exact htype
  · rw [PQueue.queueOf_setQueue]
    simp
  · rw [PQueue.capOf_setQueue]
    rfl

/-- The violation bump a refused quota check applies to the entry. -/
def Quota.violationEntry (en : Quota.QuotaEntry) : Quota.QuotaEntry :=
  { en with usage := { en.usage with
      quotaViolations := en.usage.quotaViolations + 1 } }

/-- A `system_event_post` refused by the event-rate quota: when the window
counter has reached the limit, the post returns `QuotaEventsExceeded`, only
the violation counter changes (the window counter does not), and no event
is enqueued. -/
theorem post_refused (st : SysState) (sid etype : Nat) (data : List Nat)
    (priority now : Nat) (en : Quota.QuotaEntry)
    (hinit : st.initialized = true) (hrun : st.running = true)
    (hsid : sid < st.services.length)
    (hqinit : st.quota.initialized = true)
    (hfind : Quota.find_entry st.quota.entries sid = some en)
    (hover : en.usage.eventsThisSec ≥ en.quota.maxEventsPerSec) :
    (EventBus.system_event_post st sid etype data priority now).1 =
      .quotaEventsExceeded ∧
    (Quota.find_entry
      (EventBus.system_event_post st sid etype data priority now).2.quota.entries
      sid = some (Quota.violationEntry en)) ∧
    ((EventBus.system_event_post st sid etype data priority now).2.services =
      st.services) ∧
    ((EventBus.system_event_post st sid etype data priority now).2.eventQueue =
      st.eventQueue) ∧
    ((EventBus.system_event_post st sid etype data priority now).2.totalEventsPosted
      = st.totalEventsPosted) := by
  have hq1 : Quota.quota_check_event_post st.quota sid =
      (.quotaEventsExceeded,
       { st.quota with
         entries :=
           Quota.updateFirst st.quota.entries sid Quota.violationEntry }) := by
    unfold Quota.quota_check_event_post
    rw [hfind]
    simp [hqinit, Nat.le_of_lt, hover]
    rfl
  unfold EventBus.system_event_post
  rw [if_neg (by simp [hinit, hrun])]
  rw [if_neg (by omega : ¬ sid ≥ st.services.length)]
  rw [hq1]
  dsimp only
  rw [if_pos (by decide : (EspErr.quotaEventsExceeded ≠ EspErr.ok))]
  refine ⟨rfl, ?_, rfl, rfl, rfl⟩
  dsimp only
  rw [Quota.find_entry_updateFirst _ _ Quota.violationEntry
    (fun e => ⟨rfl, rfl⟩), hfind]
  rfl

theorem Quota.recordPostEntry_iterate_counter (en : Quota.QuotaEntry)
    (k : Nat) :
    (Quota.recordPostEntry^[k] en).usage.eventsThisSec =
      en.usage.eventsThisSec + k := by
  induction k with
  | zero => rfl
  | succ n ih =>
    rw [Function.iterate_succ_apply']
    simp [Quota.recordPostEntry, ih]
    omega

theorem Quota.recordPostEntry_iterate_quota (en : Quota.QuotaEntry) (k : Nat) :
    (Quota.recordPostEntry^[k] en).quota = en.quota := by
  induction k with
  | zero => rfl
  | succ n ih =>
    rw [Function.iterate_succ_apply']
    simpa [Quota.recordPostEntry] using ih

/-- `k` repetitions of the same `system_event_post` call, keeping the state
of each call (the C caller ignores the error and calls again). -/
def EventBus.postN (sid etype : Nat) (data : List Nat) (priority now : Nat) :
    Nat → SysState → SysState
  | 0, st => st
  | k + 1, st =>
    (EventBus.system_event_post
      (EventBus.postN sid etype data priority now k st)
      sid etype data priority now).2

/-- C1: for a principal with a quota record whose event-rate limit is `Q`
and whose window counter is zero, `Q` repetitions of the same valid post
(registered sender, registered type, payload within both size limits, room
in the target FIFO for all `Q` events) within one window all return
success, each incrementing the window counter by exactly one (after `k`
posts the counter reads `k`); the `(Q+1)`-th post returns
`QuotaEventsExceeded` and leaves the window counter at `Q`. -/
theorem event_rate_quota_window (st : SysState) (sid etype : Nat)
    (data : List Nat) (priority now Q : Nat) (en : Quota.QuotaEntry)
    (hinit : st.initialized = true) (hrun : st.running = true)
    (hsid : sid < st.services.length)
    (hqinit : st.quota.initialized = true)
    (hfind : Quota.find_entry st.quota.entries sid = some en)
    (hzero : en.usage.eventsThisSec = 0)
    (hQ : en.quota.maxEventsPerSec = Q)
    (hdsize : data.length ≤ en.quota.maxEventDataSize)
    (hsize : data.length ≤ SYSTEM_MAX_DATA_SIZE)
    (hreg : EventBus.serviceRegistered st sid = true)
    (htype : EventBus.eventTypeRegistered st etype = true)
    (hprio : priority < 4)
    (hroom : (PQueue.queueOf st.eventQueue priority).length + Q ≤
      PQueue.capOf st.eventQueue priority) :
    (∀ k, k < Q →
      (EventBus.system_event_post
        (EventBus.postN sid etype data priority now k st)
        sid etype data priority now).1 = .ok) ∧
    (∀ k, k ≤ Q → ∃ enk,
      Quota.find_entry
        (EventBus.postN sid etype data priority now k st).quota.entries sid =
        some enk ∧ enk.usage.eventsThisSec = k) ∧
    ((EventBus.system_event_post
        (EventBus.postN sid etype data priority now Q st)
        sid etype data priority now).1 = .quotaEventsExceeded) ∧
    (∃ enQ,
      Quota.find_entry
        (EventBus.system_event_post
          (EventBus.postN sid etype data priority now Q st)
          sid etype data priority now).2.quota.entries sid = some enQ ∧
      enQ.usage.eventsThisSec = Q) := by
  have inv : ∀ k, k ≤ Q →
      (EventBus.postN sid etype data priority now k st).initialized = true ∧
      (EventBus.postN sid etype data priority now k st).running = true ∧
      sid < (EventBus.postN sid etype data priority now k st).services.length ∧
      (EventBus.postN sid etype data priority now k st).quota.initialized
        = true ∧
      Quota.find_entry
        (EventBus.postN sid etype data priority now k st).quota.entries sid =
        some (Quota.recordPostEntry^[k] en) ∧
      EventBus.serviceRegistered
        (EventBus.postN sid etype data priority now k st) sid = true ∧
      EventBus.eventTypeRegistered
        (EventBus.postN sid etype data priority now k st) etype = true ∧
      (PQueue.queueOf
        (EventBus.postN sid etype data priority now k st).eventQueue
        priority).length =
        (PQueue.queueOf st.eventQueue priority).length + k ∧
      PQueue.capOf
        (EventBus.postN sid etype data priority now k st).eventQueue priority
        = PQueue.capOf st.eventQueue priority := by
    intro k
    induction k with
    | zero =>
      intro _
      exact ⟨hinit, hrun, hsid, hqinit, by simpa using hfind, hreg, htype,
        rfl, rfl⟩
    | succ n ih =>
      intro hn
      obtain ⟨i1, i2, i3, i4, i5, i6, i7, i8, i9⟩ := ih (by omega)
      have hunder : (Quota.recordPostEntry^[n] en).usage.eventsThisSec <
          (Quota.recordPostEntry^[n] en).quota.maxEventsPerSec := by
        rw [Quota.recordPostEntry_iterate_counter,
          Quota.recordPostEntry_iterate_quota, hzero, hQ]
        omega
      have hds : data.length ≤
          (Quota.recordPostEntry^[n] en).quota.maxEventDataSize := by
        rw [Quota.recordPostEntry_iterate_quota]
        exact hdsize
      have hrm : (PQueue.queueOf
          (EventBus.postN sid etype data priority now n st).eventQueue
          priority).length <
          PQueue.capOf
            (EventBus.postN sid etype data priority now n st).eventQueue
            priority := by
        rw [i8, i9]
        omega
      obtain ⟨s1, s2, s3, s4, s5, s6, s7, s8, s9, s10⟩ :=
        post_step (EventBus.postN sid etype data priority now n st)
          sid etype data priority now (Quota.recordPostEntry^[n] en)
          i1 i2 i3 i4 i5 hunder hds hsize i6 i7 hprio hrm
      refine ⟨s2, s3, by rw [EventBus.postN, s4]; exact i3, s5, ?_, s7, s8,
        ?_, ?_⟩
      · rw [EventBus.postN, s6, Function.iterate_succ_apply']
      · rw [EventBus.postN, s9, i8]
        omega
      · rw [EventBus.postN, s10, i9]
  refine ⟨?_, ?_, ?_, ?_⟩
  · intro k hk
    obtain ⟨i1, i2, i3, i4, i5, i6, i7, i8, i9⟩ := inv k (by omega)
    have hunder : (Quota.recordPostEntry^[k] en).usage.eventsThisSec <
        (Quota.recordPostEntry^[k] en).quota.maxEventsPerSec := by
      rw [Quota.recordPostEntry_iterate_counter,
        Quota.recordPostEntry_iterate_quota, hzero, hQ]
      omega
    have hds : data.length ≤
        (Quota.recordPostEntry^[k] en).quota.maxEventDataSize := by
      rw [Quota.recordPostEntry_iterate_quota]
      exact hdsize
    have hrm : (PQueue.queueOf
        (EventBus.postN sid etype data priority now k st).eventQueue
        priority).length <
        PQueue.capOf
          (EventBus.postN sid etype data priority now k st).eventQueue
          priority := by
      rw [i8, i9]
      omega
    exact (post_step (EventBus.postN sid etype data priority now k st)
      sid etype data priority now (Quota.recordPostEntry^[k] en)
      i1 i2 i3 i4 i5 hunder hds hsize i6 i7 hprio hrm).1
  · intro k hk
    obtain ⟨_, _, _, _, i5, _, _, _, _⟩ := inv k hk
    exact ⟨Quota.recordPostEntry^[k] en, i5, by
      rw [Quota.recordPostEntry_iterate_counter, hzero]; omega⟩
  · obtain ⟨i1, i2, i3, i4, i5, _, _, _, _⟩ := inv Q (le_refl Q)
    have hover : (Quota.recordPostEntry^[Q] en).usage.eventsThisSec ≥
        (Quota.recordPostEntry^[Q] en).quota.maxEventsPerSec := by
      rw [Quota.recordPostEntry_iterate_counter,
        Quota.recordPostEntry_iterate_quota, hzero, hQ]
      omega
    exact (post_refused (EventBus.postN sid etype data priority now Q st)
      sid etype data priority now (Quota.recordPostEntry^[Q] en)
      i1 i2 i3 i4 i5 hover).1
  · obtain ⟨i1, i2, i3, i4, i5, _, _, _, _⟩ := inv Q (le_refl Q)
    have hover : (Quota.recordPostEntry^[Q] en).usage.eventsThisSec ≥
        (Quota.recordPostEntry^[Q] en).quota.maxEventsPerSec := by
      rw [Quota.recordPostEntry_iterate_counter,
        Quota.recordPostEntry_iterate_quota, hzero, hQ]
      omega
    refine ⟨Quota.violationEntry (Quota.recordPostEntry^[Q] en),
      (post_refused (EventBus.postN sid etype data priority now Q st)
        sid etype data priority now (Quota.recordPostEntry^[Q] en)
        i1 i2 i3 i4 i5 hover).2.1, ?_⟩
    show (Quota.recordPostEntry^[Q] en).usage.eventsThisSec = Q
    rw [Quota.recordPostEntry_iterate_counter, hzero]
    omega

/-- The quota record of the rate-limit witness: limit 2 events/sec, window
counter zero. -/
def c1EntryW : Quota.QuotaEntry :=
  { active := true, serviceId := 0,
    quota := { maxEventsPerSec := 2, maxSubscriptions := 5,
               maxEventDataSize := 64, maxMemoryBytes := 1024 },
    usage := { eventsThisSec := 0, totalEventsPosted := 0,
               activeSubscriptions := 0, currentMemoryBytes := 0,
               quotaViolations := 0 },
    lastResetTime := 0 }

/-- A running system with one registered service, one event type, and the
rate-limit quota record above. -/
def c1StateW : SysState :=
  { initialized := true, running := true, secureKey := 99,
    services := [{ name := "sensor", serviceId := 0, state := 1,
                   lastHeartbeat := 0, serviceContext := 0,
                   registered := true, eventCount := 0 }],
    serviceCount := 1,
    eventTypes := [{ eventType := 0, eventName := "temp", registered := true }],
    eventTypeCount := 1,
    subscriptions := [], subscriptionCount := 0,
    eventQueue :=
      { qLow := [], qNormal := [], qHigh := [], qCritical := [],
        capLow := 8, capNormal := 8, capHigh := 8,
        stats := pqStats0, sequenceCounter := 0 },
    totalEventsPosted := 0, totalEventsProcessed := 0,
    quota := { initialized := true, entries := [c1EntryW] } }

/-- Witness for `event_rate_quota_window` with `Q = 2` on the concrete
state above. -/
theorem event_rate_quota_window_witness :
    (∀ k, k < 2 →
      (EventBus.system_event_post
        (EventBus.postN 0 0 [42] PRIORITY_NORMAL 7 k c1StateW)
        0 0 [42] PRIORITY_NORMAL 7).1 = .ok) ∧
    (∀ k, k ≤ 2 → ∃ enk,
      Quota.find_entry
        (EventBus.postN 0 0 [42] PRIORITY_NORMAL 7 k c1StateW).quota.entries 0 =
        some enk ∧ enk.usage.eventsThisSec = k) ∧
    ((EventBus.system_event_post
        (EventBus.postN 0 0 [42] PRIORITY_NORMAL 7 2 c1StateW)
        0 0 [42] PRIORITY_NORMAL 7).1 = .quotaEventsExceeded) ∧
    (∃ enQ,
      Quota.find_entry
        (EventBus.system_event_post
          (EventBus.postN 0 0 [42] PRIORITY_NORMAL 7 2 c1StateW)
          0 0 [42] PRIORITY_NORMAL 7).2.quota.entries 0 = some enQ ∧
      enQ.usage.eventsThisSec = 2) :=
  event_rate_quota_window c1StateW 0 0 [42] PRIORITY_NORMAL 7 2 c1EntryW
    rfl rfl (by decide) rfl (by decide) rfl rfl (by decide) (by decide)
    (by decide) (by decide) (by decide) (by decide)

/-- A subscription-quota check that reports success leaves the quota state
untouched (only refusals mutate it, through the violation counter). -/
theorem Quota.quota_check_subscription_ok (q : Quota.QuotaState) (sid : Nat)
    (h : (Quota.quota_check_subscription q sid).1 = .ok) :
    Quota.quota_check_subscription q sid = (.ok, q) := by
  by_cases hi : q.initialized
  · cases hf : Quota.find_entry q.entries sid with
    | none => simp [Quota.quota_check_subscription, hi, hf]
    | some e =>
      by_cases hge : e.usage.activeSubscriptions ≥ e.quota.maxSubscriptions
      · exfalso
        simp [Quota.quota_check_subscription, hi, hf, hge] at h
      · simp [Quota.quota_check_subscription, hi, hf, hge]
  · simp [Quota.quota_check_subscription, hi]

/-- C5 (amended): a second `subscribe` for an existing `(principal, type)`
pair is idempotent — it returns success and leaves the whole state (the
subscription table and the quota enforcer's counters) exactly unchanged —
PROVIDED the principal's subscription-quota check passes; the quota check
runs before the duplicate test, so at the max-subscriptions limit the
duplicate subscribe is instead refused (see the counterexample). -/
theorem subscribe_existing_idempotent (st : SysState)
    (sid etype handler userData : Nat)
    (hh : handler ≠ 0) (hinit : st.initialized = true)
    (hsid : sid < st.services.length)
    (hq : (Quota.quota_check_subscription st.quota sid).1 = .ok)
    (hreg : EventBus.serviceRegistered st sid = true)
    (htype : EventBus.eventTypeRegistered st etype = true)
    (hex : st.subscriptions.any (fun s =>
      s.active && s.serviceId == sid && s.eventType == etype) = true) :
    EventBus.system_event_subscribe st sid etype handler userData =
      (.ok, st) := by
  unfold EventBus.system_event_subscribe
  rw [if_neg hh]
  rw [if_neg (by simp [hinit])]
  rw [if_neg (by omega : ¬ sid ≥ st.services.length)]
  rw [Quota.quota_check_subscription_ok _ _ hq]
  dsimp only
  rw [if_neg (by decide : ¬ (EspErr.ok ≠ EspErr.ok))]
  rw [hreg]
  rw [if_neg (by decide : ¬ ((!true) = true))]
  rw [htype]
  rw [if_neg (by decide : ¬ ((!true) = true))]
  rw [hex]
  rfl

/-- Base state of the double-subscribe counterexample: one registered
service and event type, no subscriptions yet, and a quota record allowing
at most one subscription. -/
def c5StateW : SysState :=
  { initialized := true, running := true, secureKey := 99,
    services := [{ name := "display", serviceId := 0, state := 1,
                   lastHeartbeat := 0, serviceContext := 0,
                   registered := true, eventCount := 0 }],
    serviceCount := 1,
    eventTypes := [{ eventType := 0, eventName := "temp", registered := true }],
    eventTypeCount := 1,
    subscriptions := [Subscription.cleared, Subscription.cleared],
    subscriptionCount := 0,
    eventQueue :=
      { qLow := [], qNormal := [], qHigh := [], qCritical := [],
        capLow := 8, capNormal := 8, capHigh := 8,
        stats := pqStats0, sequenceCounter := 0 },
    totalEventsPosted := 0, totalEventsProcessed := 0,
    quota := { initialized := true, entries :=
      [{ active := true, serviceId := 0,
         quota := { maxEventsPerSec := 10, maxSubscriptions := 1,
                    maxEventDataSize := 64, maxMemoryBytes := 1024 },
         usage := { eventsThisSec := 0, totalEventsPosted := 0,
                    activeSubscriptions := 0, currentMemoryBytes := 0,
                    quotaViolations := 0 },
         lastResetTime := 0 }] } }

/-- C5 counterexample: with a quota of at most one subscription, the first
`subscribe(s,t,h,u)` succeeds, but the repeated identical `subscribe` does
NOT return success — the subscription-quota check runs before the
duplicate test and refuses with `QuotaSubscriptionsExceeded` — and it does
not leave the state unchanged either (the violation counter moves). -/
theorem subscribe_at_limit_not_idempotent :
    (EventBus.system_event_subscribe c5StateW 0 0 5 0).1 = .ok ∧
    (EventBus.system_event_subscribe
      (EventBus.system_event_subscribe c5StateW 0 0 5 0).2 0 0 5 0).1 =
      .quotaSubscriptionsExceeded ∧
    ¬ ((EventBus.system_event_subscribe
      (EventBus.system_event_subscribe c5StateW 0 0 5 0).2 0 0 5 0).1 =
      .ok) ∧
    ¬ ((EventBus.system_event_subscribe
        (EventBus.system_event_subscribe c5StateW 0 0 5 0).2 0 0 5 0).2 =
      (EventBus.system_event_subscribe c5StateW 0 0 5 0).2) := by
  decide

/-- A state like `c5StateW` whose subscription already exists and whose
quota (at most five subscriptions, one active) still has headroom. -/
def c5UnderStateW : SysState :=
  { initialized := true, running := true, secureKey := 99,
    services := [{ name := "display", serviceId := 0, state := 1,
                   lastHeartbeat := 0, serviceContext := 0,
                   registered := true, eventCount := 0 }],
    serviceCount := 1,
    eventTypes := [{ eventType := 0, eventName := "temp", registered := true }],
    eventTypeCount := 1,
    subscriptions := [{ serviceId := 0, eventType := 0, handler := 5,
                        userData := 0, active := true },
                      Subscription.cleared],
    subscriptionCount := 1,
    eventQueue :=
      { qLow := [], qNormal := [], qHigh := [], qCritical := [],
        capLow := 8, capNormal := 8, capHigh := 8,
        stats := pqStats0, sequenceCounter := 0 },
    totalEventsPosted := 0, totalEventsProcessed := 0,
    quota := { initialized := true, entries :=
      [{ active := true, serviceId := 0,
         quota := { maxEventsPerSec := 10, maxSubscriptions := 5,
                    maxEventDataSize := 64, maxMemoryBytes := 1024 },
         usage := { eventsThisSec := 0, totalEventsPosted := 0,
                    activeSubscriptions := 1, currentMemoryBytes := 0,
                    quotaViolations := 0 },
         lastResetTime := 0 }] } }

/-- Witness for `subscribe_existing_idempotent` on the concrete state with
quota headroom. -/
theorem subscribe_existing_idempotent_witness :
    EventBus.system_event_subscribe c5UnderStateW 0 0 5 0 =
      (.ok, c5UnderStateW) :=
  subscribe_existing_idempotent c5UnderStateW 0 0 5 0
    (by decide) rfl (by decide) (by decide) (by decide) (by decide)
    (by decide)

/- ===========================================================================
Memory pool allocator (memory_pool.c).

A pointer is either a pool block — identified by the pool it physically
lives in and its block index — or a heap allocation (modelled by a fresh
counter; `malloc` is assumed to succeed).  The block header that the C code
reads at `ptr - sizeof(pool_block_t)` is modelled by the per-pool
`headerMagic`/`headerPoolId` lists indexed by block; the `next` field of
the header is the pool's `freeList` of block indices.  A heap pointer's
preceding bytes are not a valid header, so `is_pool_pointer` is false for
it.  Pool statistics are not represented (no modelled claim reads them),
and `free(NULL)`'s early return has no counterpart because the model has
no null pointer.
=========================================================================== -/

namespace MemPool

/-- `POOL_BLOCK_MAGIC`. -/
def POOL_BLOCK_MAGIC : Nat := 0xDEADBEEF

/-- A value returned by `memory_pool_alloc`. -/
inductive MemPtr where
  | pool (poolId blockIdx : Nat)
  | heap (n : Nat)
  deriving DecidableEq, Repr

/-- `memory_pool_t` (without mutex and statistics). -/
structure Pool where
  dataSize : Nat
  totalBlocks : Nat
  headerMagic : List Nat
  headerPoolId : List Nat
  freeList : List Nat
  deriving DecidableEq, Repr

/-- The disabled/empty pool (`pool_memory == NULL`). -/
def Pool.disabled : Pool :=
  { dataSize := 0, totalBlocks := 0, headerMagic := [], headerPoolId := [],
    freeList := [] }

/-- The global pool table `g_pools` plus `g_pools_initialized`; the heap is
a fresh-pointer counter. -/
structure PoolsState where
  initialized : Bool
  pools : List Pool
  heapCounter : Nat
  deriving DecidableEq, Repr

/-- `g_pools[pid]`. -/
def getPool (st : PoolsState) (pid : Nat) : Pool :=
  st.pools.getD pid Pool.disabled

/-- Store pool `pid` back into the table. -/
def setPool (st : PoolsState) (pid : Nat) (p : Pool) : PoolsState :=
  { st with pools := EventBus.setAt st.pools pid (fun _ => p) }

/-- `select_pool_for_size` (memory_pool.c lines 155-163): index of the
first pool whose data size fits, or the table length when none does. -/
def select_pool_for_size (pools : List Pool) (size : Nat) : Nat :=
  match pools with
  | [] => 0
  | p :: rest =>
    if size ≤ p.dataSize then 0 else select_pool_for_size rest size + 1

/-- `is_pool_pointer` (memory_pool.c lines 168-206): read the header behind
the pointer; validate the magic word, the header's pool id, that that
pool's memory exists, and that the pointer lies within that pool's extent
(which for disjoint pool regions forces the header's pool id to name the
pool the block lives in).  Returns the owning pool id. -/
def is_pool_pointer (st : PoolsState) (p : MemPtr) : Option Nat :=
  match p with
  | .heap _ => none
  | .pool pid b =>
    let pool := getPool st pid
    let hdrMagic := pool.headerMagic.getD b 0
    let hdrPid := pool.headerPoolId.getD b 0
    if hdrMagic ≠ POOL_BLOCK_MAGIC then none
    else if hdrPid ≥ st.pools.length then none
    else if (getPool st hdrPid).totalBlocks = 0 then none
    else if hdrPid = pid ∧ b < pool.totalBlocks then some pid
    else none

/-- A heap allocation (`malloc`, assumed to succeed). -/
def heapAlloc (st : PoolsState) : Option MemPtr × PoolsState :=
  (some (.heap st.heapCounter), { st with heapCounter := st.heapCounter + 1 })

/-- `memory_pool_alloc` (memory_pool.c lines 258-324): select the pool;
fall back to the heap when the size is too large, the pool is disabled, or
the free list is empty; otherwise pop the head of the free list and return
the block. -/
def memory_pool_alloc (st : PoolsState) (size : Nat) :
    Option MemPtr × PoolsState :=
  if !st.initialized || size = 0 then (none, st)
  else
    let pid := select_pool_for_size st.pools size
    if pid ≥ st.pools.length then heapAlloc st
    else
      let pool := getPool st pid
      if pool.totalBlocks = 0 then heapAlloc st
      else
        match pool.freeList with
        | b :: rest =>
          (some (.pool pid b), setPool st pid { pool with freeList := rest })
        | [] => heapAlloc st

/-- `memory_pool_free` (memory_pool.c lines 326-362): a pointer that passes
`is_pool_pointer` is pushed onto its pool's free list — the header's magic
word is left as it is; anything else is freed to the heap (no pool-state
change). -/
def memory_pool_free (st : PoolsState) (p : MemPtr) : PoolsState :=
  match p, is_pool_pointer st p with
  | .pool _ b, some pid =>
    let pool := getPool st pid
    setPool st pid { pool with freeList := b :: pool.freeList }
  | _, _ => st

end MemPool

/-- A one-block pool in its post-init state (magic set, block 0 free). -/
def c2StateW : MemPool.PoolsState :=
  { initialized := true,
    pools := [{ dataSize := 64, totalBlocks := 1,
                headerMagic := [MemPool.POOL_BLOCK_MAGIC],
                headerPoolId := [0], freeList := [0] }],
    heapCounter := 0 }

/-- C2 counterexample: after `alloc` hands out block 0 and one `free`
returns it, a second `free` of the same pointer is NOT rejected — the
magic word is still intact after the first free, `is_pool_pointer` still
validates the block, and the second free pushes it onto the free list
again, where it now appears twice. -/
theorem pool_double_free_counterexample :
    (MemPool.memory_pool_alloc c2StateW 16).1 =
      some (MemPool.MemPtr.pool 0 0) ∧
    (MemPool.getPool
      (MemPool.memory_pool_free (MemPool.memory_pool_alloc c2StateW 16).2
        (MemPool.MemPtr.pool 0 0)) 0).freeList.count 0 = 1 ∧
    (MemPool.getPool
      (MemPool.memory_pool_free (MemPool.memory_pool_alloc c2StateW 16).2
        (MemPool.MemPtr.pool 0 0)) 0).headerMagic =
      [MemPool.POOL_BLOCK_MAGIC] ∧
    MemPool.is_pool_pointer
      (MemPool.memory_pool_free (MemPool.memory_pool_alloc c2StateW 16).2
        (MemPool.MemPtr.pool 0 0))
      (MemPool.MemPtr.pool 0 0) = some 0 ∧
    (MemPool.getPool
      (MemPool.memory_pool_free
        (MemPool.memory_pool_free (MemPool.memory_pool_alloc c2StateW 16).2
          (MemPool.MemPtr.pool 0 0))
        (MemPool.MemPtr.pool 0 0)) 0).freeList.count 0 = 2 := by
  decide

/-- Reading back the stored index of `setAt` (in-range store). -/
theorem EventBus.getD_setAt_self {α : Type} (xs : List α) (i : Nat)
    (f : α → α) (d : α) (hi : i < xs.length) :
    (EventBus.setAt xs i f).getD i d = f (xs.getD i d) := by
  induction xs generalizing i with
  | nil => simp at hi
  | cons x rest ih =>
    cases i with
    | zero => simp [EventBus.setAt]
    | succ n =>
      simp only [EventBus.setAt, List.getD_cons_succ]
      exact ih n (by simpa using hi)

/-- C2 (amended): a block handed out by `memory_pool_alloc` from a pool
whose free list has no duplicates is, after one `memory_pool_free`,
present on that pool's free list exactly once.  But the free does NOT
clear the block's magic word, so a second free of the same pointer passes
`is_pool_pointer` again and pushes the block a second time: the block then
appears on the free list twice. -/
theorem pool_free_once_double_free_admitted (st0 : MemPool.PoolsState)
    (size pid b : Nat) (rest : List Nat)
    (hinit : st0.initialized = true) (hsz : size ≠ 0)
    (hsel : MemPool.select_pool_for_size st0.pools size = pid)
    (hpid : pid < st0.pools.length)
    (hblocks : (MemPool.getPool st0 pid).totalBlocks ≠ 0)
    (hfl : (MemPool.getPool st0 pid).freeList = b :: rest)
    (hnodup : (b :: rest).Nodup)
    (hmagic : (MemPool.getPool st0 pid).headerMagic.getD b 0 =
      MemPool.POOL_BLOCK_MAGIC)
    (hhdrpid : (MemPool.getPool st0 pid).headerPoolId.getD b 0 = pid)
    (hrange : b < (MemPool.getPool st0 pid).totalBlocks) :
    (MemPool.memory_pool_alloc st0 size =
      (some (MemPool.MemPtr.pool pid b),
       MemPool.setPool st0 pid
         { MemPool.getPool st0 pid with freeList := rest })) ∧
    ((MemPool.getPool
        (MemPool.memory_pool_free
          (MemPool.memory_pool_alloc st0 size).2
          (MemPool.MemPtr.pool pid b)) pid).freeList.count b = 1) ∧
    ((MemPool.getPool
        (MemPool.memory_pool_free
          (MemPool.memory_pool_alloc st0 size).2
          (MemPool.MemPtr.pool pid b)) pid).headerMagic =
      (MemPool.getPool st0 pid).headerMagic) ∧
    ((MemPool.getPool
        (MemPool.memory_pool_free
          (MemPool.memory_pool_free
            (MemPool.memory_pool_alloc st0 size).2
            (MemPool.MemPtr.pool pid b))
          (MemPool.MemPtr.pool pid b)) pid).freeList.count b = 2) := by
  have hlen1 : (MemPool.setPool st0 pid
      { MemPool.getPool st0 pid with freeList := rest }).pools.length =
      st0.pools.length := EventBus.length_setAt _ _ _
  have halloc : MemPool.memory_pool_alloc st0 size =
      (some (MemPool.MemPtr.pool pid b),
       MemPool.setPool st0 pid
         { MemPool.getPool st0 pid with freeList := rest }) := by
    unfold MemPool.memory_pool_alloc
    rw [if_neg (by simp [hinit, hsz])]
    dsimp only
    rw [hsel]
    rw [if_neg (by omega : ¬ pid ≥ st0.pools.length)]
    rw [if_neg hblocks]
    rw [hfl]
  set pool0 := MemPool.getPool st0 pid with hpool0
  set st1 := MemPool.setPool st0 pid { pool0 with freeList := rest } with hst1
  have hg1 : MemPool.getPool st1 pid = { pool0 with freeList := rest } := by
    unfold MemPool.getPool
    rw [hst1]
    unfold MemPool.setPool
    exact EventBus.getD_setAt_self _ _ _ _ hpid
  have hipp1 : MemPool.is_pool_pointer st1 (MemPool.MemPtr.pool pid b) =
      some pid := by
    unfold MemPool.is_pool_pointer
    dsimp only
    rw [hg1]
    dsimp only
    rw [if_neg (by simpa using hmagic)]
    rw [if_neg (by
      show ¬ pool0.headerPoolId.getD b 0 ≥ st1.pools.length
      rw [hhdrpid, hst1]
      unfold MemPool.setPool
      rw [EventBus.length_setAt]
      omega)]
    rw [if_neg (by
      show ¬ (MemPool.getPool st1 (pool0.headerPoolId.getD b 0)).totalBlocks = 0
      rw [hhdrpid, hg1]
      exact hblocks)]
    rw [if_pos ⟨hhdrpid, hrange⟩]
  have hfree1 : MemPool.memory_pool_free st1 (MemPool.MemPtr.pool pid b) =
      MemPool.setPool st1 pid { pool0 with freeList := b :: rest } := by
    unfold MemPool.memory_pool_free
    rw [hipp1]
    dsimp only
    rw [hg1]
  set st2 := MemPool.setPool st1 pid { pool0 with freeList := b :: rest }
    with hst2
  have hg2 : MemPool.getPool st2 pid = { pool0 with freeList := b :: rest } := by
    unfold MemPool.getPool
    rw [hst2]
    unfold MemPool.setPool
    refine EventBus.getD_setAt_self _ _ _ _ ?_
    rw [hst1]
    unfold MemPool.setPool
    rw [EventBus.length_setAt]
    exact hpid
  have hipp2 : MemPool.is_pool_pointer st2 (MemPool.MemPtr.pool pid b) =
      some pid := by
    unfold MemPool.is_pool_pointer
    dsimp only
    rw [hg2]
    dsimp only
    rw [if_neg (by simpa using hmagic)]
    rw [if_neg (by
      show ¬ pool0.headerPoolId.getD b 0 ≥ st2.pools.length
      rw [hhdrpid, hst2, hst1]
      unfold MemPool.setPool
      rw [EventBus.length_setAt, EventBus.length_setAt]
      omega)]
    rw [if_neg (by
      show ¬ (MemPool.getPool st2 (pool0.headerPoolId.getD b 0)).totalBlocks = 0
      rw [hhdrpid, hg2]
      exact hblocks)]
    rw [if_pos ⟨hhdrpid, hrange⟩]
  have hfree2 : MemPool.memory_pool_free st2 (MemPool.MemPtr.pool pid b) =
      MemPool.setPool st2 pid { pool0 with freeList := b :: b :: rest } := by
    unfold MemPool.memory_pool_free
    rw [hipp2]
    dsimp only
    rw [hg2]
  have hg3 : MemPool.getPool
      (MemPool.setPool st2 pid { pool0 with freeList := b :: b :: rest }) pid =
      { pool0 with freeList := b :: b :: rest } := by
    unfold MemPool.getPool MemPool.setPool
    refine EventBus.getD_setAt_self _ _ _ _ ?_
    rw [hst2, hst1]
    unfold MemPool.setPool
    rw [EventBus.length_setAt, EventBus.length_setAt]
    exact hpid
  have hbrest : b ∉ rest := (List.nodup_cons.mp hnodup).1
  have hcount : rest.count b = 0 := List.count_eq_zero.mpr hbrest
  refine ⟨halloc, ?_, ?_, ?_⟩
  · rw [halloc]
    show (MemPool.getPool
      (MemPool.memory_pool_free st1 (MemPool.MemPtr.pool pid b)) pid).freeList.count b = 1
    rw [hfree1, hg2]
    simp [hcount]
  · rw [halloc]
    show (MemPool.getPool
      (MemPool.memory_pool_free st1 (MemPool.MemPtr.pool pid b)) pid).headerMagic =
      pool0.headerMagic
    rw [hfree1, hg2]
  · rw [halloc]
    show (MemPool.getPool
      (MemPool.memory_pool_free
        (MemPool.memory_pool_free st1 (MemPool.MemPtr.pool pid b))
        (MemPool.MemPtr.pool pid b)) pid).freeList.count b = 2
    rw [hfree1, hfree2, hg3]
    simp [hcount]

/-- Witness for `pool_free_once_double_free_admitted` on the one-block
pool. -/
theorem pool_free_once_double_free_admitted_witness :
    (MemPool.memory_pool_alloc c2StateW 16 =
      (some (MemPool.MemPtr.pool 0 0),
       MemPool.setPool c2StateW 0
         { MemPool.getPool c2StateW 0 with freeList := [] })) ∧
    ((MemPool.getPool
        (MemPool.memory_pool_free
          (MemPool.memory_pool_alloc c2StateW 16).2
          (MemPool.MemPtr.pool 0 0)) 0).freeList.count 0 = 1) ∧
    ((MemPool.getPool
        (MemPool.memory_pool_free
          (MemPool.memory_pool_alloc c2StateW 16).2
          (MemPool.MemPtr.pool 0 0)) 0).headerMagic =
      (MemPool.getPool c2StateW 0).headerMagic) ∧
    ((MemPool.getPool
        (MemPool.memory_pool_free
          (MemPool.memory_pool_free
            (MemPool.memory_pool_alloc c2StateW 16).2
            (MemPool.MemPtr.pool 0 0))
          (MemPool.MemPtr.pool 0 0)) 0).freeList.count 0 = 2) :=
  pool_free_once_double_free_admitted c2StateW 16 0 0 []
    rfl (by decide) (by decide) (by decide) (by decide) (by decide)
    (by decide) (by decide) (by decide) (by decide)

/- ===========================================================================
Service dependency graph (service_dependencies.c).

`dependency_entry_t entries[SYSTEM_SERVICE_MAX_SERVICES]` is a list plus
the configured bound `maxServices`; `entry_count` is the list length.
Mutating a found entry goes through its index.  The recursive
`has_cycle_dfs` is given explicit fuel; `dependencies_add` calls it with
fuel `entry_count + 1`, which exceeds the deepest possible recursion (each
level pushes a node that was neither visited nor on the stack).
=========================================================================== -/

namespace Deps

/-- `SYSTEM_SERVICE_MAX_DEPENDENCIES` (system_types.h). -/
def SYSTEM_SERVICE_MAX_DEPENDENCIES : Nat := 8

/-- `dependency_entry_t`. -/
structure DependencyEntry where
  serviceName : String
  dependsOn : List String
  initialized : Bool
  visited : Bool
  inStack : Bool
  deriving DecidableEq, Repr

/-- The cleared entry. -/
def DependencyEntry.cleared : DependencyEntry :=
  { serviceName := "", dependsOn := [], initialized := false,
    visited := false, inStack := false }

/-- `dependency_context_t`: the entry array (bound `maxServices`). -/
structure DepState where
  initialized : Bool
  entries : List DependencyEntry
  maxServices : Nat
  deriving DecidableEq, Repr

/-- `find_entry` (service_dependencies.c lines 45-53), as the index of the
first entry with the name. -/
def findIdx (entries : List DependencyEntry) (name : String) : Option Nat :=
  entries.findIdx? (fun e => e.serviceName == name)

/-- `create_entry` (service_dependencies.c lines 55-70): append a fresh
entry with the name truncated by `strncpy`; `none` when the table is
full. -/
def create_entry (st : DepState) (name : String) : Option DepState :=
  if st.entries.length ≥ st.maxServices then none
  else some { st with entries := st.entries ++
    [{ serviceName := name.take 31, dependsOn := [], initialized := false,
       visited := false, inStack := false }] }

/-- The dependency loop of `has_cycle_dfs` (lines 89-94), abstracted over
the recursive call `rec` (the DFS at one fuel level lower): return true as
soon as one dependency closes a cycle (leaving the stack mark in place),
otherwise clear the node's stack mark. -/
def dfs_deps (rec : List DependencyEntry → Nat → Bool × List DependencyEntry)
    (entries : List DependencyEntry) (i : Nat) :
    List String → Bool × List DependencyEntry
  | [] =>
    (false, EventBus.setAt entries i (fun x => { x with inStack := false }))
  | d :: rest =>
    match findIdx entries d with
    | none => dfs_deps rec entries i rest
    | some j =>
      match rec entries j with
      | (true, entries') => (true, entries')
      | (false, entries') => dfs_deps rec entries' i rest

/-- `has_cycle_dfs` (service_dependencies.c lines 75-98): report a cycle on
re-entering a node on the recursion stack; skip already-visited nodes; mark
the node visited and on-stack, recurse into each dependency that resolves
to an entry, and pop the stack mark when every dependency is clean.  The
boolean result is paired with the mutated entry array.  The explicit fuel
bounds the recursion depth; the callers pass `entry_count + 1`, which the
depth (one fresh unvisited node per level) can never exhaust. -/
def has_cycle_dfs (fuel : Nat) (entries : List DependencyEntry) (i : Nat) :
    Bool × List DependencyEntry :=
  match fuel with
  | 0 => (false, entries)
  | fuel' + 1 =>
    let e := entries.getD i DependencyEntry.cleared
    if e.inStack then (true, entries)
    else if e.visited then (false, entries)
    else
      let entries := EventBus.setAt entries i (fun x =>
        { x with visited := true, inStack := true })
      dfs_deps (has_cycle_dfs fuel') entries i (e.dependsOn)

/-- `dependencies_add` (service_dependencies.c lines 166-228): find or
create the node for `serviceName`; succeed silently on a duplicate edge;
refuse when the per-node edge array is full; append the edge, make sure a
node for `dependsOn` exists (creation failure is ignored), reset the DFS
flags, and run the cycle check from the source node — on a cycle the
appended edge is removed again and `CircularDependency` returned. -/
def dependencies_add (st : DepState) (serviceName dependsOn : String) :
    EspErr × DepState :=
  if !st.initialized then (.invalidArg, st)
  else
    let found := findIdx st.entries serviceName
    let stI : Option (DepState × Nat) :=
      match found with
      | some i => some (st, i)
      | none =>
        match create_entry st serviceName with
        | none => none
        | some st' => some (st', st.entries.length)
    match stI with
    | none => (.noMem, st)
    | some (st1, i) =>
      let e := st1.entries.getD i DependencyEntry.cleared
      if e.dependsOn.contains dependsOn then (.ok, st1)
      else if e.dependsOn.length ≥ SYSTEM_SERVICE_MAX_DEPENDENCIES then
        (.noMem, st1)
      else
        let st2 := { st1 with entries := EventBus.setAt st1.entries i (fun x =>
          { x with dependsOn := x.dependsOn ++ [dependsOn.take 31] }) }
        let st3 : DepState :=
          match findIdx st2.entries dependsOn with
          | some _ => st2
          | none =>
            match create_entry st2 dependsOn with
            | some st' => st'
            | none => st2
        let cleared := st3.entries.map (fun (x : DependencyEntry) =>
          { x with visited := false, inStack := false })
        let st4 := { st3 with entries := cleared }
        match has_cycle_dfs (st4.entries.length + 1) st4.entries i with
        | (true, entries') =>
          (.circularDependency,
           { st4 with entries := EventBus.setAt entries' i (fun x =>
               { x with dependsOn := x.dependsOn.dropLast }) })
        | (false, entries') => (.ok, { st4 with entries := entries' })

/-- `dependencies_init` (lines 127-147): empty table. -/
def dependencies_init (maxServices : Nat) : DepState :=
  { initialized := true, entries := [], maxServices := maxServices }

/-- The graph content of the dependency table: the node list with each
node's dependency list (the DFS scratch flags and init marks are not part
of the graph). -/
def depGraph (st : DepState) : List (String × List String) :=
  st.entries.map (fun e => (e.serviceName, e.dependsOn))

end Deps

/-- C3: from a fresh dependency table, `dependencies_add("A","B")` succeeds
(creating nodes A and B with the edge A→B); the reversed
`dependencies_add("B","A")` returns `CircularDependency` and leaves the
graph — the node set, every node's dependency list, and hence the inserted
edge count — exactly as it was before that second call: the rejected edge
is rolled back. -/
theorem dependencies_cycle_rejected_rolled_back :
    (Deps.dependencies_add (Deps.dependencies_init 16) "A" "B").1 = .ok ∧
    (Deps.dependencies_add
      (Deps.dependencies_add (Deps.dependencies_init 16) "A" "B").2
      "B" "A").1 = .circularDependency ∧
    Deps.depGraph
      (Deps.dependencies_add
        (Deps.dependencies_add (Deps.dependencies_init 16) "A" "B").2
        "B" "A").2 =
      Deps.depGraph
        (Deps.dependencies_add (Deps.dependencies_init 16) "A" "B").2 ∧
    Deps.depGraph
      (Deps.dependencies_add (Deps.dependencies_init 16) "A" "B").2 =
      [("A", ["B"]), ("B", [])] := by
  set_option maxRecDepth 4000 in decide

/- ===========================================================================
Service watchdog (service_watchdog.c).

One pass of the `watchdog_task` scan over a single entry, at wall-clock
`now` (32-bit milliseconds; `elapsed = now - last_heartbeat` wraps).  The
restart path (`restart_service`) reads and then sets the monitored
service's registry state, so the scan step also threads the registry: the
restart succeeds exactly when `system_service_get_info` and
`system_service_set_state` both find the service registered.
=========================================================================== -/

namespace Watchdog

/-- `SYSTEM_SERVICE_STATE_ERROR` (system_types.h ordinal 5). -/
def STATE_ERROR : Nat := 5

/-- 32-bit wraparound subtraction (`uint32_t` `now - last_heartbeat`). -/
def u32sub (a b : Nat) : Nat := (a % U32_MOD + U32_MOD - b % U32_MOD) % U32_MOD

/-- `service_watchdog_config_t`. -/
structure WatchdogConfig where
  timeoutMs : Nat
  autoRestart : Bool
  maxRestartAttempts : Nat
  isCritical : Bool
  deriving DecidableEq, Repr

/-- `watchdog_entry_t`. -/
structure WatchdogEntry where
  active : Bool
  serviceId : Nat
  config : WatchdogConfig
  lastHeartbeat : Nat
  restartAttempts : Nat
  timeoutDetected : Bool
  deriving DecidableEq, Repr

/-- `watchdog_stats_t` plus the context's safe-mode latch. -/
structure WatchdogGlobals where
  totalTimeouts : Nat
  totalRestarts : Nat
  failedRestarts : Nat
  criticalFailures : Nat
  safeMode : Bool
  safeModeActive : Bool
  deriving DecidableEq, Repr

/-- `enter_safe_mode` (service_watchdog.c lines 122-142): latch safe mode
once; count a critical failure. -/
def enter_safe_mode (g : WatchdogGlobals) : WatchdogGlobals :=
  if g.safeMode then g
  else { g with safeMode := true, safeModeActive := true,
                criticalFailures := g.criticalFailures + 1 }

/-- `restart_service` (service_watchdog.c lines 90-120): fetch the service
info, mark the service's state as ERROR; failure of the state write maps to
`RestartFailed`.  Both steps require the slot to be registered. -/
def restart_service (registryInitialized : Bool)
    (services : List ServiceEntry) (sid : Nat) :
    EspErr × List ServiceEntry :=
  let getInfoErr : EspErr :=
    if !registryInitialized then .invalidState
    else if sid ≥ services.length then .invalidArg
    else if !(services.getD sid ServiceEntry.cleared).registered then .notFound
    else .ok
  if getInfoErr ≠ .ok then (getInfoErr, services)
  else
    let setStateErr : EspErr :=
      if !registryInitialized then .invalidState
      else if sid ≥ services.length then .invalidArg
      else if !(services.getD sid ServiceEntry.cleared).registered then
        .notFound
      else .ok
    if setStateErr ≠ .ok then (.restartFailed, services)
    else
      (.ok, EventBus.setAt services sid (fun s =>
        { s with state := STATE_ERROR }))

/-- One entry's slice of the `watchdog_task` scan (service_watchdog.c lines
165-237) at time `now`: detect a fresh timeout, then — critical service →
safe mode; auto-restart with budget → count and attempt the restart,
resetting the heartbeat and the latch on success, counting the failure
otherwise; no budget or no auto-restart → log only.  A latched entry whose
heartbeat is fresh again recovers: the latch and the restart-attempt
counter are cleared. -/
def watchdog_check_entry (now : Nat) (registryInitialized : Bool)
    (services : List ServiceEntry) (e : WatchdogEntry)
    (g : WatchdogGlobals) :
    WatchdogEntry × WatchdogGlobals × List ServiceEntry :=
  if !e.active then (e, g, services)
  else
    let elapsed := u32sub now e.lastHeartbeat
    if elapsed > e.config.timeoutMs then
      if !e.timeoutDetected then
        let e := { e with timeoutDetected := true }
        let g := { g with totalTimeouts := g.totalTimeouts + 1 }
        if e.config.isCritical then
          (e, enter_safe_mode g, services)
        else if e.config.autoRestart then
          if e.config.maxRestartAttempts = 0 ∨
              e.restartAttempts < e.config.maxRestartAttempts then
            let e := { e with restartAttempts := e.restartAttempts + 1 }
            let g := { g with totalRestarts := g.totalRestarts + 1 }
            match restart_service registryInitialized services e.serviceId with
            | (ret, services') =>
              if ret ≠ .ok then
                let g := { g with failedRestarts := g.failedRestarts + 1 }
                if e.config.maxRestartAttempts > 0 ∧
                    e.restartAttempts ≥ e.config.maxRestartAttempts then
                  (e, { g with criticalFailures := g.criticalFailures + 1 },
                   services')
                else (e, g, services')
              else
                ({ e with lastHeartbeat := now, timeoutDetected := false },
                 g, services')
          else (e, g, services)
        else (e, g, services)
      else (e, g, services)
    else
      if e.timeoutDetected then
        ({ e with timeoutDetected := false, restartAttempts := 0 }, g,
         services)
      else (e, g, services)

end Watchdog

/-- C4 (amended): when a monitored, unlatched, non-critical entry with
auto-restart and remaining budget times out and the restart invocation
succeeds, the watchdog resets the timeout latch and refreshes the
heartbeat, but it does NOT reset the restart-attempts counter — the
counter was incremented just before the attempt and keeps that value;
it is zeroed only on the recovery path, when a latched entry's heartbeat
becomes fresh again within the timeout. -/
theorem watchdog_restart_success_keeps_attempts (now now2 : Nat)
    (svs svs2 : List ServiceEntry) (e e2 : Watchdog.WatchdogEntry)
    (g g2 : Watchdog.WatchdogGlobals)
    (hact : e.active = true)
    (helapsed : Watchdog.u32sub now e.lastHeartbeat > e.config.timeoutMs)
    (hlatch : e.timeoutDetected = false)
    (hcrit : e.config.isCritical = false)
    (hauto : e.config.autoRestart = true)
    (hbudget : e.config.maxRestartAttempts = 0 ∨
      e.restartAttempts < e.config.maxRestartAttempts)
    (hsid : e.serviceId < svs.length)
    (hreg : (svs.getD e.serviceId ServiceEntry.cleared).registered = true)
    (hact2 : e2.active = true)
    (helapsed2 : Watchdog.u32sub now2 e2.lastHeartbeat ≤ e2.config.timeoutMs)
    (hlatch2 : e2.timeoutDetected = true) :
    ((Watchdog.watchdog_check_entry now true svs e g).1 =
       { e with restartAttempts := e.restartAttempts + 1,
                lastHeartbeat := now, timeoutDetected := false } ∧
     (Watchdog.watchdog_check_entry now true svs e g).2.1 =
       { g with totalTimeouts := g.totalTimeouts + 1,
                totalRestarts := g.totalRestarts + 1 } ∧
     (Watchdog.watchdog_check_entry now true svs e g).2.2 =
       EventBus.setAt svs e.serviceId (fun s =>
         { s with state := Watchdog.STATE_ERROR })) ∧
    ((Watchdog.watchdog_check_entry now2 true svs2 e2 g2).1 =
       { e2 with timeoutDetected := false, restartAttempts := 0 } ∧
     (Watchdog.watchdog_check_entry now2 true svs2 e2 g2).2.1 = g2 ∧
     (Watchdog.watchdog_check_entry now2 true svs2 e2 g2).2.2 = svs2) := by
  have hrs : Watchdog.restart_service true svs e.serviceId =
      (.ok, EventBus.setAt svs e.serviceId (fun s =>
        { s with state := Watchdog.STATE_ERROR })) := by
    unfold Watchdog.restart_service
    rw [if_neg (by omega : ¬ e.serviceId ≥ svs.length)]
    rw [hreg]
    simp
  constructor
  · unfold Watchdog.watchdog_check_entry
    rw [hact]
    simp only [Bool.not_true, Bool.false_eq_true, if_false]
    rw [if_pos helapsed]
    rw [hlatch]
    simp only [Bool.not_false, if_true]
    rw [hcrit]
    simp only [Bool.false_eq_true, if_false]
    rw [hauto]
    simp only [if_true]
    rw [if_pos hbudget]
    rw [hrs]
    dsimp only
    rw [if_neg (by decide : ¬ (EspErr.ok ≠ EspErr.ok))]
    exact ⟨rfl, rfl, rfl⟩
  · unfold Watchdog.watchdog_check_entry
    rw [hact2]
    simp only [Bool.not_true, Bool.false_eq_true, if_false]
    rw [if_neg (by omega : ¬ Watchdog.u32sub now2 e2.lastHeartbeat >
      e2.config.timeoutMs)]
    rw [hlatch2]
    exact ⟨rfl, rfl, rfl⟩

/-- The timed-out watchdog entry of the restart scenario: timeout 100 ms,
auto-restart, budget 3, not critical, never latched, no heartbeat since 0. -/
def c4EntryW : Watchdog.WatchdogEntry :=
  { active := true, serviceId := 0,
    config := { timeoutMs := 100, autoRestart := true,
                maxRestartAttempts := 3, isCritical := false },
    lastHeartbeat := 0, restartAttempts := 0, timeoutDetected := false }

/-- A latched entry whose heartbeat is fresh again (recovery scenario). -/
def c4RecoverEntryW : Watchdog.WatchdogEntry :=
  { active := true, serviceId := 0,
    config := { timeoutMs := 100, autoRestart := true,
                maxRestartAttempts := 3, isCritical := false },
    lastHeartbeat := 190, restartAttempts := 2, timeoutDetected := true }

/-- Zeroed watchdog statistics. -/
def c4GlobalsW : Watchdog.WatchdogGlobals :=
  { totalTimeouts := 0, totalRestarts := 0, failedRestarts := 0,
    criticalFailures := 0, safeMode := false, safeModeActive := false }

/-- The registry slice of the watchdog scenario: one registered service. -/
def c4ServicesW : List ServiceEntry :=
  [{ name := "sensor", serviceId := 0, state := 2, lastHeartbeat := 0,
     serviceContext := 0, registered := true, eventCount := 0 }]

/-- C4 counterexample: at time 200 the entry above times out, the restart
invocation succeeds (the service is registered and is marked ERROR), the
latch is reset — and the record's `restart_attempts` equals 1, not 0: a
successful restart does not reset the restart-attempts counter. -/
theorem watchdog_restart_attempts_not_reset :
    (Watchdog.watchdog_check_entry 200 true c4ServicesW c4EntryW
      c4GlobalsW).1.timeoutDetected = false ∧
    (Watchdog.watchdog_check_entry 200 true c4ServicesW c4EntryW
      c4GlobalsW).2.1.totalRestarts = 1 ∧
    (Watchdog.watchdog_check_entry 200 true c4ServicesW c4EntryW
      c4GlobalsW).2.1.failedRestarts = 0 ∧
    ((Watchdog.watchdog_check_entry 200 true c4ServicesW c4EntryW
      c4GlobalsW).2.2.getD 0 ServiceEntry.cleared).state =
      Watchdog.STATE_ERROR ∧
    (Watchdog.watchdog_check_entry 200 true c4ServicesW c4EntryW
      c4GlobalsW).1.restartAttempts = 1 ∧
    ¬ ((Watchdog.watchdog_check_entry 200 true c4ServicesW c4EntryW
      c4GlobalsW).1.restartAttempts = 0) := by
  decide

/-- Witness for `watchdog_restart_success_keeps_attempts` on the concrete
timed-out entry (restart path) and the concrete recovered entry. -/
theorem watchdog_restart_success_keeps_attempts_witness :
    ((Watchdog.watchdog_check_entry 200 true c4ServicesW c4EntryW
        c4GlobalsW).1 =
       { c4EntryW with restartAttempts := c4EntryW.restartAttempts + 1,
                       lastHeartbeat := 200, timeoutDetected := false } ∧
     (Watchdog.watchdog_check_entry 200 true c4ServicesW c4EntryW
        c4GlobalsW).2.1 =
       { c4GlobalsW with totalTimeouts := c4GlobalsW.totalTimeouts + 1,
                         totalRestarts := c4GlobalsW.totalRestarts + 1 } ∧
     (Watchdog.watchdog_check_entry 200 true c4ServicesW c4EntryW
        c4GlobalsW).2.2 =
       EventBus.setAt c4ServicesW c4EntryW.serviceId (fun s =>
         { s with state := Watchdog.STATE_ERROR })) ∧
    ((Watchdog.watchdog_check_entry 250 true c4ServicesW c4RecoverEntryW
        c4GlobalsW).1 =
       { c4RecoverEntryW with timeoutDetected := false,
                              restartAttempts := 0 } ∧
     (Watchdog.watchdog_check_entry 250 true c4ServicesW c4RecoverEntryW
        c4GlobalsW).2.1 = c4GlobalsW ∧
     (Watchdog.watchdog_check_entry 250 true c4ServicesW c4RecoverEntryW
        c4GlobalsW).2.2 = c4ServicesW) :=
  watchdog_restart_success_keeps_attempts 200 250 c4ServicesW c4ServicesW
    c4EntryW c4RecoverEntryW c4GlobalsW c4GlobalsW
    rfl (by decide) rfl rfl rfl (Or.inr (by decide)) (by decide) (by decide)
    rfl (by decide) rfl

/- ===========================================================================
Service registry (service_manager.c).
=========================================================================== -/

namespace ServiceMgr

/-- `SYSTEM_SERVICE_STATE_REGISTERED` (system_types.h ordinal 1). -/
def STATE_REGISTERED : Nat := 1

/-- Index of the first unregistered slot (`slot == -1` when none). -/
def firstFreeSlot (svs : List ServiceEntry) : Option Nat :=
  svs.findIdx? (fun s => !s.registered)

/-- `system_service_register` (service_manager.c lines 9-73).  `name = none`
models a NULL name pointer; `now` is the heartbeat stamp.  Checks, in the
code's order: non-NULL name, initialized runtime, registry head-count below
capacity, name not already registered (comparing the full given name to the
stored names), a free slot.  The slot then receives the name truncated by
`strncpy` to 31 characters, the slot index as id, state REGISTERED, the
context, and a fresh heartbeat; the returned id is the slot index. -/
def system_service_register (st : SysState) (name : Option String)
    (ctx : Nat) (now : Nat) : EspErr × SysState × Option Nat :=
  match name with
  | none => (.invalidArg, st, none)
  | some s =>
    if !st.initialized then (.invalidState, st, none)
    else if st.serviceCount ≥ st.services.length then (.noMem, st, none)
    else if st.services.any (fun e => e.registered && e.name == s) then
      (.invalidState, st, none)
    else
      match firstFreeSlot st.services with
      | none => (.noMem, st, none)
      | some slot =>
        let st' := { st with
          services := EventBus.setAt st.services slot (fun e =>
            { e with name := s.take 31, serviceId := slot,
                     state := STATE_REGISTERED, lastHeartbeat := now,
                     serviceContext := ctx, registered := true,
                     eventCount := 0 })
          serviceCount := st.serviceCount + 1 }
        (.ok, st', some slot)

end ServiceMgr

/-- A fresh initialized runtime with two empty registry slots. -/
def c8StateW : SysState :=
  { initialized := true, running := false, secureKey := 3,
    services := [ServiceEntry.cleared, ServiceEntry.cleared],
    serviceCount := 0,
    eventTypes := [], eventTypeCount := 0,
    subscriptions := [], subscriptionCount := 0,
    eventQueue :=
      { qLow := [], qNormal := [], qHigh := [], qCritical := [],
        capLow := 8, capNormal := 8, capHigh := 8,
        stats := pqStats0, sequenceCounter := 0 },
    totalEventsPosted := 0, totalEventsProcessed := 0,
    quota := { initialized := true, entries := [] } }

/-- A 40-character name (exceeding the 31-character bound). -/
def c8LongNameW : String := "0123456789012345678901234567890123456789"

/-- C8 counterexample: `register` does not validate the name's content.
The empty name `""` is accepted (returns success and occupies slot 0)
instead of failing; a 40-character name is also accepted, and the stored
name is the `strncpy`-truncated 31-character prefix, not the name
unmodified. -/
theorem register_accepts_empty_and_truncates :
    (ServiceMgr.system_service_register c8StateW (some "") 0 5).1 = .ok ∧
    (ServiceMgr.system_service_register c8StateW (some "") 0 5).2.2 =
      some 0 ∧
    ((ServiceMgr.system_service_register c8StateW (some "") 0 5).2.1.services.getD
      0 ServiceEntry.cleared).registered = true ∧
    (ServiceMgr.system_service_register c8StateW (some c8LongNameW) 0 5).1 =
      .ok ∧
    ((ServiceMgr.system_service_register c8StateW (some c8LongNameW) 0
      5).2.1.services.getD 0 ServiceEntry.cleared).name =
      "0123456789012345678901234567890" ∧
    ¬ (((ServiceMgr.system_service_register c8StateW (some c8LongNameW) 0
      5).2.1.services.getD 0 ServiceEntry.cleared).name = c8LongNameW) := by
  set_option maxRecDepth 8000 in decide

/-- C8 (amended): `register` validates only that the name pointer is
non-NULL and that the name is not already present among registered
principals (plus registry capacity): a NULL name fails with `InvalidArg`
and a duplicate name fails with an error leaving the state unchanged, but
an empty name is NOT rejected, and a name longer than the 31-character
bound is NOT rejected either — a slot is allocated for any non-NULL,
not-already-present name, storing the name truncated by `strncpy` (not
unmodified for overlong names). -/
theorem register_validates_presence_only (st st2 : SysState)
    (s s2 : String) (ctx now : Nat) (slot : Nat)
    (hinit : st.initialized = true)
    (hcount : st.serviceCount < st.services.length)
    (hdup : st.services.any (fun e => e.registered && e.name == s) = true)
    (hinit2 : st2.initialized = true)
    (hcount2 : st2.serviceCount < st2.services.length)
    (hnodup2 : st2.services.any (fun e => e.registered && e.name == s2)
      = false)
    (hslot : ServiceMgr.firstFreeSlot st2.services = some slot)
    (hslotlen : slot < st2.services.length) :
    (ServiceMgr.system_service_register st (some s) ctx now =
      (.invalidState, st, none)) ∧
    ((ServiceMgr.system_service_register st2 (some s2) ctx now).1 = .ok ∧
     (ServiceMgr.system_service_register st2 (some s2) ctx now).2.2 =
       some slot ∧
     ((ServiceMgr.system_service_register st2 (some s2) ctx
        now).2.1.services.getD slot ServiceEntry.cleared).name =
       s2.take 31 ∧
     ((ServiceMgr.system_service_register st2 (some s2) ctx
        now).2.1.services.getD slot ServiceEntry.cleared).registered =
       true ∧
     ((ServiceMgr.system_service_register st2 (some s2) ctx
        now).2.1.services.getD slot ServiceEntry.cleared).serviceContext =
       ctx) ∧
    (ServiceMgr.system_service_register st none ctx now =
      (.invalidArg, st, none)) := by
  refine ⟨?_, ⟨?_, ?_, ?_, ?_, ?_⟩, rfl⟩
  · unfold ServiceMgr.system_service_register
    dsimp only
    rw [if_neg (by simp [hinit])]
    rw [if_neg (by omega : ¬ st.serviceCount ≥ st.services.length)]
    rw [if_pos hdup]
  all_goals
    unfold ServiceMgr.system_service_register
  all_goals
    dsimp only
  all_goals
    rw [if_neg (by simp [hinit2])]
  all_goals
    rw [if_neg (by omega : ¬ st2.serviceCount ≥ st2.services.length)]
  all_goals
    rw [hnodup2]
  all_goals
    rw [if_neg (by decide : ¬ (false = true))]
  all_goals
    rw [hslot]
  all_goals
    dsimp only
  all_goals
    rw [EventBus.getD_setAt_self _ _ _ _ hslotlen]

/-- The registry of the registration witness: one registered service
"audio" and one free slot. -/
def c8DupStateW : SysState :=
  { c8StateW with
    services := [{ name := "audio", serviceId := 0, state := 1,
                   lastHeartbeat := 0, serviceContext := 0,
                   registered := true, eventCount := 0 },
                 ServiceEntry.cleared]
    serviceCount := 1 }

/-- Witness for `register_validates_presence_only`: re-registering "audio"
is refused and changes nothing; registering "input" succeeds into the free
slot 1 with the name stored (34 characters would be truncated to 31); a
NULL name is refused. -/
theorem register_validates_presence_only_witness :
    (ServiceMgr.system_service_register c8DupStateW (some "audio") 7 5 =
      (.invalidState, c8DupStateW, none)) ∧
    ((ServiceMgr.system_service_register c8DupStateW (some "input") 7 5).1 =
      .ok ∧
     (ServiceMgr.system_service_register c8DupStateW (some "input") 7
       5).2.2 = some 1 ∧
     ((ServiceMgr.system_service_register c8DupStateW (some "input") 7
        5).2.1.services.getD 1 ServiceEntry.cleared).name =
       "input".take 31 ∧
     ((ServiceMgr.system_service_register c8DupStateW (some "input") 7
        5).2.1.services.getD 1 ServiceEntry.cleared).registered = true ∧
     ((ServiceMgr.system_service_register c8DupStateW (some "input") 7
        5).2.1.services.getD 1 ServiceEntry.cleared).serviceContext = 7) ∧
    (ServiceMgr.system_service_register c8DupStateW none 7 5 =
      (.invalidArg, c8DupStateW, none)) :=
  register_validates_presence_only c8DupStateW c8DupStateW "audio" "input"
    7 5 1 rfl (by decide) (by decide) rfl (by decide) (by decide)
    (by decide) (by decide)

/- ===========================================================================
Dynamic application loader: entry-point selection (app_loader.c).

`map_elf_addr_to_loaded` walks the section mapping table built during
loading; a C NULL result is the address 0 (the code tests the returned
pointer).  A dynamic symbol carries its name (the string at `st_name` in
the dynamic string table; `st_name == 0` means unnamed), its section index
(`st_shndx == 0` marks an undefined external) and its value.  The symbol
scan of `app_loader_resolve_symbols` keeps overwriting
`entry_from_symbol`, so the LAST matching symbol wins.
=========================================================================== -/

namespace Loader

/-- `strcmp(name + len - n, suffix) == 0` for a suffix of length `n`: the
character-list suffix test (ASCII names; kernel-computable, unlike
`String.endsWith`). -/
def strEndsWith (s suffix : String) : Bool :=
  suffix.data.isSuffixOf s.data

/-- One row of `g_section_map`. -/
structure SectionMapEntry where
  elfAddr : Nat
  loadedAddr : Nat
  size : Nat
  deriving DecidableEq, Repr

/-- `map_elf_addr_to_loaded` (app_loader.c lines 938-952): translate an
image virtual address through the first section whose range contains it;
NULL (0) when no section matches. -/
def map_elf_addr_to_loaded (maps : List SectionMapEntry) (addr : Nat) : Nat :=
  match maps with
  | [] => 0
  | m :: rest =>
    if m.elfAddr ≤ addr ∧ addr < m.elfAddr + m.size then
      m.loadedAddr + (addr - m.elfAddr)
    else map_elf_addr_to_loaded rest addr

/-- `elf32_sym_t` as the symbol scan reads it: `stName` is the offset into
the dynamic string table (0 = unnamed), `name` the string found there. -/
structure ElfSym where
  stName : Nat
  name : String
  stShndx : Nat
  stValue : Nat
  deriving DecidableEq, Repr

/-- The `*_app_entry` scan of `app_loader_resolve_symbols` (app_loader.c
lines 1060-1077): for each named symbol whose name is longer than the
10-character suffix and ends in `"_app_entry"`, is defined, and maps to a
non-NULL loaded address, overwrite `entry_from_symbol`; 0 when no symbol
qualifies. -/
def entry_from_symbol_scan (maps : List SectionMapEntry)
    (syms : List ElfSym) : Nat :=
  syms.foldl (fun acc sym =>
    if sym.stName ≠ 0 ∧ sym.name.length > 10 ∧
        strEndsWith sym.name "_app_entry" ∧ sym.stShndx ≠ 0 then
      let addr := map_elf_addr_to_loaded maps sym.stValue
      if addr ≠ 0 then addr else acc
    else acc) 0

/-- Entry-point selection (app_loader.c lines 1105-1117): prefer the
symbol-scan result; else a nonzero `e_entry` translated through the table
(falling back to the code segment when the translation fails); else the
code segment start. -/
def select_entry_point (maps : List SectionMapEntry) (syms : List ElfSym)
    (eEntry codeSegment : Nat) : Nat :=
  let entryFromSymbol := entry_from_symbol_scan maps syms
  if entryFromSymbol ≠ 0 then entryFromSymbol
  else if eEntry ≠ 0 then
    let addr := map_elf_addr_to_loaded maps eEntry
    if addr = 0 then codeSegment else addr
  else codeSegment

/-- The claim's preferred-symbol pool, in the claim's own words: defined
dynamic symbols whose names END IN `"_app_entry"` (no length restriction)
and that map through the table; each contributes its translated address. -/
def entryCandidatesAsWritten (maps : List SectionMapEntry)
    (syms : List ElfSym) : List Nat :=
  (syms.filter (fun sym =>
    sym.stName ≠ 0 && strEndsWith sym.name "_app_entry" && sym.stShndx ≠ 0 &&
      map_elf_addr_to_loaded maps sym.stValue ≠ 0)).map
    (fun sym => map_elf_addr_to_loaded maps sym.stValue)

/-- The amended preferred-symbol pool: as above but requiring a nonempty
prefix before the suffix (name strictly longer than `"_app_entry"`),
matching the code's `name_len > 10` test. -/
def entryCandidatesAmended (maps : List SectionMapEntry)
    (syms : List ElfSym) : List Nat :=
  (syms.filter (fun sym =>
    sym.stName ≠ 0 && decide (sym.name.length > 10) &&
      strEndsWith sym.name "_app_entry" && sym.stShndx ≠ 0 &&
      map_elf_addr_to_loaded maps sym.stValue ≠ 0)).map
    (fun sym => map_elf_addr_to_loaded maps sym.stValue)

end Loader

/-- C7 counterexample: an image whose only dynamic symbol is named exactly
`"_app_entry"` (defined, and mapping to loaded address 0x200), with
`e_entry = 0` and code region at 0x300.  As written the claim prefers that
symbol (its translated address 0x200 is the as-written candidate), but the
code requires `name_len > 10`, skips it, and publishes the code-region
start 0x300 instead. -/
theorem entry_point_suffix_only_symbol_skipped :
    Loader.entryCandidatesAsWritten
      [{ elfAddr := 0x100, loadedAddr := 0x200, size := 16 }]
      [{ stName := 1, name := "_app_entry", stShndx := 1,
         stValue := 0x100 }] = [0x200] ∧
    Loader.select_entry_point
      [{ elfAddr := 0x100, loadedAddr := 0x200, size := 16 }]
      [{ stName := 1, name := "_app_entry", stShndx := 1,
         stValue := 0x100 }] 0 0x300 = 0x300 ∧
    ¬ (Loader.select_entry_point
      [{ elfAddr := 0x100, loadedAddr := 0x200, size := 16 }]
      [{ stName := 1, name := "_app_entry", stShndx := 1,
         stValue := 0x100 }] 0 0x300 = 0x200) := by
  decide

/-- `getLast?` of a cons, through `getD`: the head becomes the new
default. -/
theorem getLast?_cons_getD (a acc : Nat) (l : List Nat) :
    (a :: l).getLast?.getD acc = l.getLast?.getD a := by
  cases l with
  | nil => rfl
  | cons b t =>
    rw [List.getLast?_cons_cons]
    have hs : (b :: t).getLast?.isSome := by
      rw [List.getLast?_isSome]
      simp
    obtain ⟨x, hx⟩ := Option.isSome_iff_exists.mp hs
    rw [hx]
    rfl

/-- The symbol scan computes the translated address of the LAST qualifying
symbol (the amended candidate pool), or its accumulator when none
qualifies. -/
theorem entry_scan_eq_getLast (maps : List Loader.SectionMapEntry) :
    ∀ (syms : List Loader.ElfSym) (acc : Nat),
    List.foldl (fun acc sym =>
      if sym.stName ≠ 0 ∧ sym.name.length > 10 ∧
          Loader.strEndsWith sym.name "_app_entry" ∧ sym.stShndx ≠ 0 then
        let addr := Loader.map_elf_addr_to_loaded maps sym.stValue
        if addr ≠ 0 then addr else acc
      else acc) acc syms =
    (Loader.entryCandidatesAmended maps syms).getLast?.getD acc := by
  intro syms
  induction syms with
  | nil => intro acc; rfl
  | cons sym rest ih =>
    intro acc
    by_cases h : sym.stName ≠ 0 ∧ sym.name.length > 10 ∧
        Loader.strEndsWith sym.name "_app_entry" ∧ sym.stShndx ≠ 0
    · by_cases ha : Loader.map_elf_addr_to_loaded maps sym.stValue ≠ 0
      · have hc : Loader.entryCandidatesAmended maps (sym :: rest) =
            Loader.map_elf_addr_to_loaded maps sym.stValue ::
              Loader.entryCandidatesAmended maps rest := by
          unfold Loader.entryCandidatesAmended
          rw [List.filter_cons]
          rw [if_pos (by
            simp only [Bool.and_eq_true, decide_eq_true_eq, ne_eq]
            exact ⟨⟨⟨⟨h.1, h.2.1⟩, h.2.2.1⟩, h.2.2.2⟩, ha⟩)]
          rfl
        rw [List.foldl_cons]
        dsimp only
        rw [if_pos h, if_pos ha, ih, hc, getLast?_cons_getD]
      · have hc : Loader.entryCandidatesAmended maps (sym :: rest) =
            Loader.entryCandidatesAmended maps rest := by
          unfold Loader.entryCandidatesAmended
          rw [List.filter_cons]
          rw [if_neg (by
            simp only [Bool.and_eq_true, decide_eq_true_eq, ne_eq]
            intro hcontra
            exact ha hcontra.2)]
        rw [List.foldl_cons]
        dsimp only
        rw [if_pos h, if_neg ha, ih, hc]
    · have hc : Loader.entryCandidatesAmended maps (sym :: rest) =
          Loader.entryCandidatesAmended maps rest := by
        unfold Loader.entryCandidatesAmended
        rw [List.filter_cons]
        rw [if_neg (by
          simp only [Bool.and_eq_true, decide_eq_true_eq, ne_eq]
          intro hcontra
          exact h ⟨hcontra.1.1.1.1, hcontra.1.1.1.2, hcontra.1.1.2,
            hcontra.1.2⟩)]
      rw [List.foldl_cons]
      dsimp only
      rw [if_neg h, ih, hc]

/-- C7 (amended): the published entry point follows the exact preference
order: the translated address of the last defined dynamic symbol whose
name ends in `"_app_entry"` WITH A NONEMPTY PREFIX (strictly longer than
the 10-character suffix — a symbol named exactly `"_app_entry"` is
skipped) and that maps through the section table; otherwise, when the ELF
header's `e_entry` is nonzero and maps through the table, its translated
address; otherwise the start of the code region. -/
theorem entry_point_preference_order (maps : List Loader.SectionMapEntry)
    (syms : List Loader.ElfSym) (eEntry codeSegment : Nat) :
    (∀ a, (Loader.entryCandidatesAmended maps syms).getLast? = some a →
      Loader.select_entry_point maps syms eEntry codeSegment = a) ∧
    ((Loader.entryCandidatesAmended maps syms).getLast? = none →
      eEntry ≠ 0 → Loader.map_elf_addr_to_loaded maps eEntry ≠ 0 →
      Loader.select_entry_point maps syms eEntry codeSegment =
        Loader.map_elf_addr_to_loaded maps eEntry) ∧
    ((Loader.entryCandidatesAmended maps syms).getLast? = none →
      (eEntry = 0 ∨ Loader.map_elf_addr_to_loaded maps eEntry = 0) →
      Loader.select_entry_point maps syms eEntry codeSegment =
        codeSegment) := by
  have hscan : Loader.entry_from_symbol_scan maps syms =
      (Loader.entryCandidatesAmended maps syms).getLast?.getD 0 := by
    unfold Loader.entry_from_symbol_scan
    exact entry_scan_eq_getLast maps syms 0
  refine ⟨?_, ?_, ?_⟩
  · intro a hlast
    have hmem : a ∈ Loader.entryCandidatesAmended maps syms := by
      obtain ⟨hne, rfl⟩ :=
        List.mem_getLast?_eq_getLast (Option.mem_def.mpr hlast)
      exact List.getLast_mem hne
    have hane : a ≠ 0 := by
      unfold Loader.entryCandidatesAmended at hmem
      obtain ⟨sym, hsym, rfl⟩ := List.mem_map.mp hmem
      have := (List.mem_filter.mp hsym).2
      simp only [Bool.and_eq_true, decide_eq_true_eq, ne_eq] at this
      exact this.2
    unfold Loader.select_entry_point
    rw [hscan, hlast]
    simp only [Option.getD_some]
    rw [if_pos hane]
  · intro hlast hne hmap
    unfold Loader.select_entry_point
    rw [hscan, hlast]
    simp only [Option.getD_none]
    rw [if_neg (by decide : ¬ ((0 : Nat) ≠ 0)), if_pos hne,
      if_neg hmap]
  · intro hlast hor
    unfold Loader.select_entry_point
    rw [hscan, hlast]
    simp only [Option.getD_none]
    rw [if_neg (by decide : ¬ ((0 : Nat) ≠ 0))]
    rcases hor with h0 | hm
    · rw [if_neg (by omega : ¬ eEntry ≠ 0)]
    · by_cases he : eEntry ≠ 0
      · rw [if_pos he, if_pos hm]
      · rw [if_neg he]

/-- Section table of the entry-point witness. -/
def c7MapsW : List Loader.SectionMapEntry :=
  [{ elfAddr := 0x100, loadedAddr := 0x200, size := 16 }]

/-- Symbol table of the entry-point witness: one defined `my_app_entry`. -/
def c7SymsW : List Loader.ElfSym :=
  [{ stName := 1, name := "my_app_entry", stShndx := 1, stValue := 0x104 }]

/-- Witness for `entry_point_preference_order`: the `my_app_entry` symbol
is preferred; without symbols a nonzero mapped `e_entry` is used; without
either, the code-region start. -/
theorem entry_point_preference_order_witness :
    Loader.select_entry_point c7MapsW c7SymsW 0 0x300 = 0x204 ∧
    Loader.select_entry_point c7MapsW [] 0x100 0x300 =
      Loader.map_elf_addr_to_loaded c7MapsW 0x100 ∧
    Loader.select_entry_point c7MapsW [] 0 0x300 = 0x300 :=
  ⟨(entry_point_preference_order c7MapsW c7SymsW 0 0x300).1 0x204
     (by decide),
   (entry_point_preference_order c7MapsW [] 0x100 0x300).2.1
     (by decide) (by decide) (by decide),
   (entry_point_preference_order c7MapsW [] 0 0x300).2.2
     (by decide) (Or.inl rfl)⟩
